import Mathlib

/-!
Verification of the NetLabX packet-path simulation engine.

This file shallowly embeds the core of the NetLabX network simulator:
the routing path resolver `simulateRouting` (the spec's `resolvePath`)
and its helpers from `src/App.tsx`, the subnet utilities from
`src/utils/subnetUtils.ts`, the HTTP handler from
`src/utils/dnsResolver.ts`, and the backbone allocator from the
topology store in `src/App.tsx`.  JavaScript string/number primitives
(`split('.')`, `parseInt`, `Number`, `&`) are modelled at the character
level so that every definition is executable by the kernel.
-/

namespace NetLabX

/-! ### Models of the JavaScript primitives used by the source -/

/-- The string JS produces when interpolating `undefined` into a template. -/
def jsUndefined : String := "undefined"

/-- Decimal digits of a character list, read from the front. -/
def decDigits (cs : List Char) : List Char := cs.takeWhile (fun c => c.isDigit)

/-- Value of a list of decimal digit characters. -/
def digitsToNat (ds : List Char) : Nat :=
  ds.foldl (fun acc c => 10 * acc + (c.toNat - 48)) 0

/-- Model of JS `parseInt(s)` on the decimal strings this code base feeds it:
skips leading whitespace, reads an optional sign and then the longest prefix
of decimal digits; `none` models `NaN` (no digits).  (Hex/float forms never
occur for dot-separated address parts.) -/
def jsParseInt (s : String) : Option Int :=
  let cs := s.toList.dropWhile (fun c => c.isWhitespace)
  match cs with
  | '-' :: rest =>
    let ds := decDigits rest
    if ds.isEmpty then none else some (-(digitsToNat ds : Int))
  | '+' :: rest =>
    let ds := decDigits rest
    if ds.isEmpty then none else some ((digitsToNat ds : Int))
  | _ =>
    let ds := decDigits cs
    if ds.isEmpty then none else some ((digitsToNat ds : Int))

/-- Model of JS `Number(s)` on the dot-separated tokens this code base feeds
it: the empty (or all-whitespace) string converts to `0`, a string of decimal
digits with an optional sign converts to its value, anything else is `NaN`
(modelled as `none`).  Float/hex/exponent tokens cannot arise from splitting a
dotted address on `'.'`. -/
def jsNumber (s : String) : Option Int :=
  let cs := s.toList.dropWhile (fun c => c.isWhitespace) |>.reverse.dropWhile (fun c => c.isWhitespace) |>.reverse
  match cs with
  | [] => some 0
  | '-' :: rest =>
    if rest ≠ [] ∧ rest.all (fun c => c.isDigit) then some (-(digitsToNat rest : Int)) else none
  | '+' :: rest =>
    if rest ≠ [] ∧ rest.all (fun c => c.isDigit) then some ((digitsToNat rest : Int)) else none
  | _ =>
    if cs.all (fun c => c.isDigit) then some ((digitsToNat cs : Int)) else none

/-- JS `ToInt32` as an unsigned 32-bit residue; `NaN` converts to `0`. -/
def toUint32 : Option Int → Nat
  | none => 0
  | some n => ((n % 4294967296).toNat)

/-- Model of the JS bitwise `a & b` (operands converted by `ToInt32`,
`NaN → 0`); the result is reinterpreted as a signed 32-bit integer. -/
def jsAnd (a b : Option Int) : Int :=
  let r := Nat.land (toUint32 a) (toUint32 b)
  if r < 2147483648 then (r : Int) else (r : Int) - 4294967296

/-- Model of JS `s.split('.')`: splits at every `'.'`, keeping empty pieces. -/
def splitDotAux : List Char → List Char → List String
  | [], acc => [String.mk acc.reverse]
  | c :: rest, acc =>
    if c = '.' then String.mk acc.reverse :: splitDotAux rest []
    else splitDotAux rest (c :: acc)

/-- JS `s.split('.')`. -/
def jsSplitDot (s : String) : List String := splitDotAux s.toList []

/-- JS `arr.join(sep)`. -/
def jsJoin (sep : String) : List String → String
  | [] => ""
  | [x] => x
  | x :: rest => x ++ sep ++ jsJoin sep rest

/-- JS `s.trim()` (on the ASCII whitespace relevant here). -/
def jsTrim (s : String) : String :=
  String.mk ((s.toList.dropWhile (fun c => c.isWhitespace)).reverse.dropWhile (fun c => c.isWhitespace) |>.reverse)

/-- JS `s.toLowerCase()` (ASCII). -/
def jsToLower (s : String) : String := String.mk (s.toList.map (fun c => c.toLower))

/-- `tag.isPrefixOf s` at the character level (used to classify messages). -/
def strStarts (s tag : String) : Bool := List.isPrefixOf tag.toList s.toList

/-! ### `src/utils/subnetUtils.ts` -/

/-- `calculateSubnet(ip, subnetMask)` from `subnetUtils.ts`: split both
strings on `'.'` and convert with `Number`; if either does not have exactly
four parts return `''`; otherwise AND the parts pairwise (JS `&`, so a `NaN`
part acts as `0`) and join with `'.'`.  (The `try/catch` in the source cannot
fire: none of the operations throws.) -/
def calculateSubnet (ip : String) (subnetMask : String := "255.255.255.0") : String :=
  let ipParts := (jsSplitDot ip).map jsNumber
  let maskParts := (jsSplitDot subnetMask).map jsNumber
  if ipParts.length ≠ 4 ∨ maskParts.length ≠ 4 then ""
  else
    match ipParts, maskParts with
    | [i0, i1, i2, i3], [m0, m1, m2, m3] =>
      let s0 := jsAnd i0 m0
      let s1 := jsAnd i1 m1
      let s2 := jsAnd i2 m2
      let s3 := jsAnd i3 m3
      s!"{s0}.{s1}.{s2}.{s3}"
    | _, _ => ""

/-- `validateIPAddress` from `subnetUtils.ts` (the spec's `validateAddress`):
requires the `^(\d{1,3})\.(\d{1,3})\.(\d{1,3})\.(\d{1,3})$` shape with every
segment in 0–255, and additionally rejects first-octet 0/127/255 and
last-octet 0/255.  Only validity is modelled; the error strings are dropped
by the callers this development reasons about. -/
def validateIPAddress (ip : String) : Bool :=
  if ip = "" ∨ jsTrim ip = "" then false
  else
    let parts := jsSplitDot ip
    if parts.length = 4 ∧ parts.all (fun p => decide (1 ≤ p.length ∧ p.length ≤ 3) && p.toList.all (fun c => c.isDigit)) then
      let segments := parts.map (fun p => digitsToNat p.toList)
      let s0 := segments.getD 0 0
      let s3 := segments.getD 3 0
      if segments.any (fun seg => seg > 255) then false
      else if s0 = 0 ∨ s0 = 127 ∨ s0 = 255 then false
      else if s3 = 0 ∨ s3 = 255 then false
      else true
    else false

/-- `deriveSubnet(ip, mask)` from the store in `App.tsx` (line 357): the
result of `calculateSubnet` when truthy (non-empty), otherwise the first
three dot-parts of `ip` followed by `.0` when `ip` has at least three parts,
otherwise `"0.0.0.0"`. -/
def deriveSubnet (ip : String) (mask : String := "255.255.255.0") : String :=
  let calculated := calculateSubnet ip mask
  if calculated ≠ "" then calculated
  else
    let parts := jsSplitDot ip
    if parts.length ≥ 3 then
      let p0 := parts.getD 0 jsUndefined
      let p1 := parts.getD 1 jsUndefined
      let p2 := parts.getD 2 jsUndefined
      s!"{p0}.{p1}.{p2}.0"
    else "0.0.0.0"

/-! ### Data model (`src/types/index.ts`)

`position` (canvas coordinates) is omitted: it is floating-point UI state
that no simulated operation reads. -/

/-- `DeviceType` from `types/index.ts`. -/
inductive DeviceType
  | router | pc | server | dns | web
deriving DecidableEq, Repr

/-- The TS string literal of a `DeviceType` (used in template messages). -/
def DeviceType.str : DeviceType → String
  | .router => "router"
  | .pc => "pc"
  | .server => "server"
  | .dns => "dns"
  | .web => "web"

/-- `type.toUpperCase()` for a `DeviceType`. -/
def DeviceType.upper : DeviceType → String
  | .router => "ROUTER"
  | .pc => "PC"
  | .server => "SERVER"
  | .dns => "DNS"
  | .web => "WEB"

/-- `NetworkInterface` from `types/index.ts`. -/
structure NetworkInterface where
  id : Option String := none
  name : String
  ip : String
  subnet : Option String := none
  subnetMask : Option String := none
  connectedTo : Option String := none
deriving DecidableEq, Repr

/-- `RouteEntry` from `types/index.ts`.  `iface` embeds the TS field
`interface` (the egress interface name), which is not a legal Lean field
name. -/
structure RouteEntry where
  destination : String
  nextHop : String
  metric : Int
  iface : String
deriving DecidableEq, Repr

/-- `DNSRecord` from `types/index.ts` (`type` is always `'A'`). -/
structure DNSRecord where
  id : String
  domain : String
  ip : String
deriving DecidableEq, Repr

/-- `Device` from `types/index.ts`. -/
structure Device where
  id : String
  name : String
  type : DeviceType
  ip : String
  interfaces : List NetworkInterface
  routingTable : Option (List RouteEntry) := none
  gateway : Option String := none
  dnsServer : Option String := none
  dnsRecords : Option (List DNSRecord) := none
  webContent : Option String := none
  domain : Option String := none
  port : Option Int := none
deriving DecidableEq, Repr

/-- `Connection` from `types/index.ts`. -/
structure Connection where
  id : String
  source : String
  target : String
  sourceInterfaceId : Option String := none
  targetInterfaceId : Option String := none
deriving DecidableEq, Repr

/-- One entry of `SimulationResult.steps`. -/
structure SimStep where
  router : String
  action : String
  routeEntry : Option RouteEntry := none
deriving DecidableEq, Repr

/-- `SimulationResult` from `types/index.ts`. -/
structure SimulationResult where
  success : Bool
  path : List String
  message : String
  steps : List SimStep
  isRoundTrip : Option Bool := none
  requestPath : Option (List String) := none
  responsePath : Option (List String) := none
  requestLabel : Option String := none
  responseLabel : Option String := none
  httpSuccess : Option Bool := none
  httpStatusCode : Option Int := none
deriving DecidableEq, Repr

/-- The record pushed onto `failedRoutes` inside `simulateRouting`. -/
structure FailedRoute where
  nextHop : String
  metric : Int
  reason : String
deriving DecidableEq, Repr

/-! ### Helpers of `simulateRouting` (`src/App.tsx`, lines 1408–1435) -/

/-- `getNetwork(ip)` from `App.tsx`: `` `${parts[0]}.${parts[1]}.${parts[2]}.0` ``.
A missing part interpolates as the string `"undefined"`, as in JS. -/
def getNetwork (ip : String) : String :=
  let parts := jsSplitDot ip
  let p0 := parts.getD 0 jsUndefined
  let p1 := parts.getD 1 jsUndefined
  let p2 := parts.getD 2 jsUndefined
  s!"{p0}.{p1}.{p2}.0"

/-- `hasPhysicalConnection(deviceA, deviceB, connections)` from `App.tsx`. -/
def hasPhysicalConnection (deviceA deviceB : Device) (connections : List Connection) : Bool :=
  connections.any (fun c =>
    (c.source == deviceA.id && c.target == deviceB.id) ||
    (c.source == deviceB.id && c.target == deviceA.id))

/-- `validateIP(ip)` from `App.tsx`: exactly four dot-parts, each of which
`parseInt`s to a number in 0–255.  (Note: this is the check `simulateRouting`
actually performs; it is weaker than `validateIPAddress`.) -/
def validateIP (ip : String) : Bool :=
  let parts := jsSplitDot ip
  if parts.length ≠ 4 then false
  else parts.all (fun part =>
    match jsParseInt part with
    | none => false
    | some num => decide (0 ≤ num ∧ num ≤ 255))

/-! ### `simulateRouting` (`src/App.tsx`, lines 1437–1799)

The `while` loop is embedded as a fuel-indexed recursion: the source runs
`while (hopCount < maxHops)` with `hopCount` incremented once per iteration,
which is exactly `routeLoop` called with `maxHops` fuel. -/

/-- `maxHops` from `simulateRouting`. -/
def maxHops : Nat := 10

/-- The three spellings of a directly-connected route's `nextHop`. -/
def isDirectSentinel (nh : String) : Bool :=
  nh == "-" || nh == "直连" || nh == "0.0.0.0"

/-- Resolution of a forwarding route's next hop: first a device by `name`,
then (if none) a router owning an interface with that IP. -/
def findNextRouter (devices : List Device) (nextHop : String) : Option Device :=
  match devices.find? (fun d => d.name == nextHop) with
  | some d => some d
  | none =>
    devices.find? (fun d =>
      d.type == DeviceType.router &&
      d.interfaces.any (fun iface => iface.ip == nextHop))

/-- One candidate-route attempt from the `for (const candidateRoute of
sortedRoutes)` loop: `none` means the candidate is feasible (the loop
`break`s with it); `some f` is the record pushed onto `failedRoutes` before
`continue`. -/
def routeFailure (devices : List Device) (connections : List Connection)
    (currentDevice : Device) (destIP destNetwork : String)
    (candidateRoute : RouteEntry) : Option FailedRoute :=
  if isDirectSentinel candidateRoute.nextHop then
    match devices.find? (fun d => d.ip == destIP) with
    | none =>
      some { nextHop := "直连", metric := candidateRoute.metric,
             reason := s!"目标IP {destIP} 不存在" }
    | some destDevice =>
      if ¬ (currentDevice.interfaces.any (fun iface => getNetwork iface.ip == destNetwork)) then
        some { nextHop := "直连", metric := candidateRoute.metric,
               reason := "路由器没有该网段的接口" }
      else if ¬ hasPhysicalConnection currentDevice destDevice connections then
        some { nextHop := "直连", metric := candidateRoute.metric,
               reason := "物理连接断开" }
      else none
  else
    match findNextRouter devices candidateRoute.nextHop with
    | none =>
      some { nextHop := candidateRoute.nextHop, metric := candidateRoute.metric,
             reason := "下一站路由器不存在" }
    | some nextRouter =>
      if nextRouter.type ≠ DeviceType.router then
        let t := nextRouter.type.str
        some { nextHop := candidateRoute.nextHop, metric := candidateRoute.metric,
               reason := s!"不是路由器({t})" }
      else if ¬ hasPhysicalConnection currentDevice nextRouter connections then
        some { nextHop := candidateRoute.nextHop, metric := candidateRoute.metric,
               reason := "物理连接断开" }
      else if ¬ (currentDevice.interfaces.any (fun currentIface =>
                  nextRouter.interfaces.any (fun nextIface =>
                    getNetwork currentIface.ip == getNetwork nextIface.ip))) then
        some { nextHop := candidateRoute.nextHop, metric := candidateRoute.metric,
               reason := "接口配置错误(没有共同网段)" }
      else none

/-- The candidate-trial loop: tries the sorted routes in order, accumulating
`failedRoutes` (pushed at the back, as in the source) until one is feasible. -/
def tryRoutes (devices : List Device) (connections : List Connection)
    (currentDevice : Device) (destIP destNetwork : String) :
    List RouteEntry → List FailedRoute → Option RouteEntry × List FailedRoute
  | [], failed => (none, failed)
  | candidateRoute :: rest, failed =>
    match routeFailure devices connections currentDevice destIP destNetwork candidateRoute with
    | some f => tryRoutes devices connections currentDevice destIP destNetwork rest (failed ++ [f])
    | none => (some candidateRoute, failed)

/-- `matchingRoutes.sort((a, b) => a.metric - b.metric)`: JS `sort` with a
numeric comparator is a stable ascending sort, modelled by the (stable)
insertion sort on `metric`. -/
def sortRoutes (l : List RouteEntry) : List RouteEntry :=
  List.insertionSort (fun a b => a.metric ≤ b.metric) l

/-- Mutable state of the `while` loop in `simulateRouting`. -/
structure LoopState where
  currentDevice : Device
  path : List String
  steps : List SimStep
  visited : List String
  hopCount : Nat
deriving Repr

/-- Rendering of a failed route inside the all-routes-failed message. -/
def failedInfoStr (f : FailedRoute) : String :=
  let nh := f.nextHop
  let m := f.metric
  let r := f.reason
  s!"{nh}(权重{m}, {r})"

/-- Rendering of a skipped route inside the fallback-route step message. -/
def failedBriefStr (f : FailedRoute) : String :=
  let nh := f.nextHop
  let m := f.metric
  s!"{nh}(权重{m})"

/-- One iteration body of the `while` loop, after the destination check:
either an early `return` (`Sum.inl` with the returned result) or the fall
through to the loop-detection check with the chosen `nextDevice` and the
steps accumulated so far (`Sum.inr`).

The two `Sum.inl` results tagged `"TypeError"` model the TS non-null
assertions `destDevice!`/`nextRouter!`; they are unreachable because the
chosen route was validated by `routeFailure` against the same lookups. -/
def nextStep (devices : List Device) (connections : List Connection)
    (destIP : String) (showSteps : Bool) (st : LoopState) :
    Sum SimulationResult (Device × List SimStep) :=
  let currentDevice := st.currentDevice
  if currentDevice.type ≠ DeviceType.router then
    -- 5. endpoint devices: find the default gateway
    let currentNetwork := getNetwork currentDevice.ip
    let nm := currentDevice.name
    let up := currentDevice.type.upper
    let endpointLabel := if currentDevice.type = DeviceType.pc then s!"PC {nm}" else s!"{up} {nm}"
    match devices.find? (fun d =>
        d.type == DeviceType.router &&
        d.interfaces.any (fun iface => getNetwork iface.ip == currentNetwork)) with
    | none =>
      let ip := currentDevice.ip
      Sum.inl { success := false, path := st.path,
                message := s!"❌ {endpointLabel} ({ip}) 找不到默认网关\n网段: {currentNetwork}",
                steps := st.steps }
    | some gateway =>
      if ¬ hasPhysicalConnection currentDevice gateway connections then
        let gw := gateway.name
        Sum.inl { success := false, path := st.path,
                  message := s!"❌ {endpointLabel} 和网关 {gw} 之间没有物理连接线！\n请先用 Shift+点击 连接这两个设备。",
                  steps := st.steps }
      else
        let gw := gateway.name
        let steps' := if showSteps
          then st.steps ++ [{ router := currentDevice.name,
                              action := s!"{endpointLabel} 发送数据到默认网关 {gw}" }]
          else st.steps
        Sum.inr (gateway, steps')
  else
    -- 6. routers: look up the routing table
    let nm := currentDevice.name
    let tableIsEmpty := match currentDevice.routingTable with
      | none => true
      | some table => table.isEmpty
    if tableIsEmpty then
      Sum.inl { success := false, path := st.path,
                message := s!"❌ 路由器 {nm} 的路由表为空！\n请配置路由表。",
                steps := st.steps }
    else
      let table := currentDevice.routingTable.getD []
      let destNetwork := getNetwork destIP
      let exactRoutes := table.filter (fun r => r.destination == destIP)
      let matchingRoutes := if exactRoutes.isEmpty
        then table.filter (fun r => r.destination == destNetwork)
        else exactRoutes
      if matchingRoutes.isEmpty then
        let tableDests := jsJoin ", " (table.map (fun r => r.destination))
        Sum.inl { success := false, path := st.path,
                  message := s!"❌ 路由器 {nm} 的路由表中没有到达 {destIP} ({destNetwork}) 的路由！\n当前路由表只有: {tableDests}",
                  steps := st.steps }
      else
        let sortedRoutes := sortRoutes matchingRoutes
        match tryRoutes devices connections currentDevice destIP destNetwork sortedRoutes [] with
        | (none, failedRoutes) =>
          let failedInfo := jsJoin ", " (failedRoutes.map failedInfoStr)
          Sum.inl { success := false, path := st.path,
                    message := s!"❌ 路由器 {nm} 的所有路由都不可用！\n目标: {destIP}\n尝试过的路由: {failedInfo}\n\n请检查物理连接或路由配置。",
                    steps := st.steps }
        | (some route, failedRoutes) =>
          let routeIndex := sortedRoutes.indexOf route
          let nh := route.nextHop
          let m := route.metric
          let steps1 := if routeIndex > 0 ∧ showSteps then
              let skippedRoutes := jsJoin ", " ((failedRoutes.take routeIndex).map failedBriefStr)
              st.steps ++ [{ router := currentDevice.name,
                             action := s!"⚠️ 最优路由不可用 [{skippedRoutes}]，使用备用路由: {nh}(权重{m})",
                             routeEntry := some route }]
            else st.steps
          let steps2 := if showSteps ∧ routeIndex = 0 then
              steps1 ++ [{ router := currentDevice.name,
                           action := s!"查找路由表: 目标网段 {destNetwork}, 下一站 {nh}, 权重 {m}",
                           routeEntry := some route }]
            else steps1
          if isDirectSentinel route.nextHop then
            match devices.find? (fun d => d.ip == destIP) with
            | some destDevice =>
              let hc := st.hopCount
              Sum.inl { success := true, path := st.path ++ [destDevice.name],
                        message := s!"✅ 成功到达目的地！经过了 {hc} 跳",
                        steps := steps2 }
            | none =>
              Sum.inl { success := false, path := st.path, message := "TypeError", steps := steps2 }
          else
            match findNextRouter devices route.nextHop with
            | some nextRouter => Sum.inr (nextRouter, steps2)
            | none =>
              Sum.inl { success := false, path := st.path, message := "TypeError", steps := steps2 }

/-- The `while (hopCount < maxHops)` loop of `simulateRouting`, with the
remaining iteration budget as fuel. -/
def routeLoop (devices : List Device) (connections : List Connection)
    (destIP : String) (showSteps : Bool) : Nat → LoopState → SimulationResult
  | 0, st =>
    { success := false, path := st.path,
      message := s!"❌ 超过最大跳数限制 ({maxHops}跳)，可能存在路由环路",
      steps := st.steps }
  | fuel + 1, st =>
    if st.currentDevice.ip == destIP then
      let hc := st.hopCount
      { success := true, path := st.path,
        message := s!"✅ 成功到达目的地！经过了 {hc} 跳",
        steps := st.steps }
    else
      match nextStep devices connections destIP showSteps st with
      | Sum.inl result => result
      | Sum.inr (nextDevice, steps') =>
        if st.visited.contains nextDevice.id then
          let nd := nextDevice.name
          let pathStr := jsJoin " → " st.path
          { success := false, path := st.path,
            message := s!"❌ 检测到路由环路！设备 {nd} 已经访问过。\n路径: {pathStr}",
            steps := steps' }
        else
          routeLoop devices connections destIP showSteps fuel
            { currentDevice := nextDevice,
              path := st.path ++ [nextDevice.name],
              steps := steps',
              visited := st.visited ++ [nextDevice.id],
              hopCount := st.hopCount + 1 }

/-- `simulateRouting(devices, connections, sourceIP, destIP, showSteps)` from
`App.tsx` — the spec's `resolvePath`. -/
def simulateRouting (devices : List Device) (connections : List Connection)
    (sourceIP destIP : String) (showSteps : Bool := false) : SimulationResult :=
  if ¬ validateIP sourceIP then
    { success := false, path := [], message := s!"❌ 源IP地址格式错误: {sourceIP}", steps := [] }
  else if ¬ validateIP destIP then
    { success := false, path := [], message := s!"❌ 目标IP地址格式错误: {destIP}", steps := [] }
  else
    match devices.find? (fun d => d.ip == sourceIP) with
    | none =>
      { success := false, path := [], message := s!"❌ 找不到源IP {sourceIP} 对应的设备", steps := [] }
    | some sourceDevice =>
      if sourceIP == destIP then
        { success := true, path := [sourceDevice.name], message := "✅ 源和目标是同一设备", steps := [] }
      else
        routeLoop devices connections destIP showSteps maxHops
          { currentDevice := sourceDevice,
            path := [sourceDevice.name],
            steps := [],
            visited := [sourceDevice.id],
            hopCount := 0 }

/-! ### Backbone allocation (`src/App.tsx`, lines 417–448) -/

/-- `collectUsedBackboneIndices(devices)`: for every router interface other
than `LAN` with a non-empty IP whose first two dot-parts are `10` and `0`,
collect `Number(parts[2])` when it is not `NaN`.  The source accumulates
into a `Set<number>`; the collected list here is membership-equivalent. -/
def collectUsedBackboneIndices (devices : List Device) : List Int :=
  devices.flatMap (fun device =>
    if device.type ≠ DeviceType.router then []
    else device.interfaces.flatMap (fun iface =>
      if iface.ip == "" || iface.name == "LAN" then []
      else
        let parts := jsSplitDot iface.ip
        if parts.length < 3 then []
        else if parts.getD 0 "" == "10" && parts.getD 1 "" == "0" then
          match jsNumber (parts.getD 2 "") with
          | some idx => [idx]
          | none => []
        else []))

/-- The `while (used.has(index)) index++` scan of `allocateBackboneNetwork`,
with enough fuel to be equivalent to the unbounded loop (the loop always
halts after at most `used.length` hits). -/
def firstFreeScan (used : List Int) : Nat → Nat → Nat
  | 0, index => index
  | fuel + 1, index =>
    if used.contains (index : Int) then firstFreeScan used fuel (index + 1) else index

/-- Result record of `allocateBackboneNetwork`. -/
structure BackboneAllocation where
  subnet : String
  sourceIP : String
  targetIP : String
deriving DecidableEq, Repr

/-- `allocateBackboneNetwork(devices)` from `App.tsx`: picks the lowest
index not in `collectUsedBackboneIndices` and builds `10.0.N.0` /
`10.0.N.1` / `10.0.N.2`. -/
def allocateBackboneNetwork (devices : List Device) : BackboneAllocation :=
  let used := collectUsedBackboneIndices devices
  let index := firstFreeScan used (used.length + 1) 0
  { subnet := s!"10.0.{index}.0",
    sourceIP := s!"10.0.{index}.1",
    targetIP := s!"10.0.{index}.2" }

/-! ### The DNS and HTTP round-trip wrappers (`src/App.tsx`)

`simulateDNSQuery` / `simulateHTTPRequest` are store actions that also drive
animation timers; the embeddings below return the `SimulationResult` value
the store publishes, omitting the `set`/`setTimeout` plumbing. -/

/-- The conditional device-type label used in the DNS wrapper's error
messages (`wrongTypeDevice.type === 'web' ? 'Web服务器' : ... 'PC' : type`). -/
def dnsWrongTypeLabel (t : DeviceType) : String :=
  if t = DeviceType.web then "Web服务器" else if t = DeviceType.pc then "PC" else t.str

/-- The result published by `simulateDNSQuery(sourceIP, dnsServerIP, domain)`
(`App.tsx`, lines 1005–1143). -/
def dnsQueryResult (devices : List Device) (connections : List Connection)
    (sourceIP dnsServerIP domain : String) : SimulationResult :=
  match devices.find? (fun d => d.ip == sourceIP) with
  | none =>
    { success := false, path := [], message := s!"❌ DNS查询失败：源设备 {sourceIP} 不存在", steps := [] }
  | some sourceDevice =>
    match devices.find? (fun d => d.type == DeviceType.dns && d.ip == dnsServerIP) with
    | none =>
      let message := match devices.find? (fun d => d.ip == dnsServerIP) with
        | some wrongTypeDevice =>
          let wn := wrongTypeDevice.name
          let wt := dnsWrongTypeLabel wrongTypeDevice.type
          s!"❌ DNS配置错误\n\nIP {dnsServerIP} 是 {wn} ({wt})，不是DNS服务器\n\n💡 请在设备配置中选择正确的DNS服务器"
        | none => s!"❌ DNS服务器 {dnsServerIP} 不存在\n\n💡 请检查DNS服务器IP地址配置"
      { success := false, path := [], message := message, steps := [] }
    | some dnsDevice =>
      let requestRoute := simulateRouting devices connections sourceIP dnsServerIP
      let pathEnd := requestRoute.path.getLast? |>.getD ""
      if requestRoute.success ∧ requestRoute.path ≠ [] ∧ pathEnd ≠ dnsDevice.name then
        let wd := devices.find? (fun d => d.name == pathEnd)
        let wdName := match wd with | some d => d.name | none => jsUndefined
        let wdT := match wd with
          | some d => if d.type = DeviceType.web then "Web服务器" else d.type.str
          | none => jsUndefined
        let dn := dnsDevice.name
        { success := false, path := requestRoute.path,
          message := s!"❌ DNS查询失败\n\n路由到达了 {wdName} ({wdT})，不是DNS服务器 {dn}\n\n💡 可能原因：\n- DNS和Web服务器使用了相同IP {dnsServerIP}\n- 请确保DNS服务器使用独立IP地址",
          steps := requestRoute.steps }
      else
        let responsePath := if requestRoute.success then requestRoute.path.reverse else []
        let resolvedIP := match dnsDevice.dnsRecords with
          | some records =>
            match records.find? (fun r => jsToLower r.domain == jsToLower domain) with
            | some record => record.ip
            | none => ""
          | none => ""
        let srcName := sourceDevice.name
        let dn := dnsDevice.name
        let resolvedOr := if resolvedIP ≠ "" then resolvedIP else "未找到"
        { requestRoute with
          isRoundTrip := some true,
          requestPath := some requestRoute.path,
          responsePath := some responsePath,
          requestLabel := some s!"🔍 DNS查询: {domain}",
          responseLabel := some (if resolvedIP ≠ "" then s!"✅ 返回IP: {resolvedIP}" else "❌ 域名不存在"),
          message := if requestRoute.success
            then s!"✅ DNS查询完成\n{srcName} ⇄ {dn}\n域名: {domain} → IP: {resolvedOr}"
            else requestRoute.message }

/-- The conditional device-type label used in the HTTP wrapper's error
messages (`'dns' ? 'DNS服务器' : 'pc' ? 'PC' : type`). -/
def httpWrongTypeLabel (t : DeviceType) : String :=
  if t = DeviceType.dns then "DNS服务器" else if t = DeviceType.pc then "PC" else t.str

/-- The result published by `simulateHTTPRequest(sourceIP, targetIP,
httpSuccess, statusCode, ..., httpMessage)` (`App.tsx`, lines 1145–1266). -/
def httpRequestResult (devices : List Device) (connections : List Connection)
    (sourceIP targetIP : String) (httpSuccess : Bool) (statusCode : Int)
    (httpMessage : String := "") : SimulationResult :=
  let targetDevice? := devices.find? (fun d => d.ip == targetIP)
  let targetOk := match targetDevice? with
    | some d => d.type == DeviceType.web
    | none => Bool.false
  if targetOk = false then
    let message := match targetDevice? with
      | some wrongTypeDevice =>
        let wn := wrongTypeDevice.name
        let wt := httpWrongTypeLabel wrongTypeDevice.type
        s!"❌ HTTP请求失败\n\nIP {targetIP} 是 {wn} ({wt})，不是Web服务器\n\n💡 请确认访问的是Web服务器"
      | none => s!"❌ HTTP请求失败\n\n目标IP {targetIP} 不存在\n\n💡 请检查域名DNS解析结果"
    { success := false, path := [], message := message, steps := [],
      httpSuccess := some false, httpStatusCode := some 503 }
  else
    let targetDevice := targetDevice?.getD { id := "", name := "", type := DeviceType.web, ip := "", interfaces := [] }
    let requestRoute := simulateRouting devices connections sourceIP targetIP
    let pathEnd := requestRoute.path.getLast? |>.getD ""
    if requestRoute.success ∧ requestRoute.path ≠ [] ∧ pathEnd ≠ targetDevice.name then
      let wd := devices.find? (fun d => d.name == pathEnd)
      let wdName := match wd with | some d => d.name | none => jsUndefined
      let wdT := match wd with
        | some d => if d.type = DeviceType.dns then "DNS服务器" else d.type.str
        | none => jsUndefined
      let tn := targetDevice.name
      { success := false, path := requestRoute.path,
        message := s!"❌ HTTP请求失败\n\n路由到达了 {wdName} ({wdT})，不是Web服务器 {tn}\n\n💡 可能原因：\n- DNS和Web服务器使用了相同IP {targetIP}\n- 请确保Web服务器使用独立IP地址",
        steps := requestRoute.steps,
        httpSuccess := some false, httpStatusCode := some 503 }
    else
      let responsePath := if requestRoute.success then requestRoute.path.reverse else []
      let httpSummary := if httpSuccess then s!"✅ HTTP {statusCode} 成功" else s!"❌ HTTP {statusCode} 失败"
      let mergedMessage := if requestRoute.success
        then (if httpMessage ≠ "" ∧ jsTrim httpMessage ≠ "" then httpSummary ++ "\n" ++ httpMessage else httpSummary)
        else requestRoute.message
      { requestRoute with
        isRoundTrip := some true,
        requestPath := some requestRoute.path,
        responsePath := some responsePath,
        requestLabel := some "📤 HTTP GET /",
        responseLabel := some (if httpSuccess then s!"📥 HTTP {statusCode} OK" else s!"❌ HTTP {statusCode} 错误"),
        message := mergedMessage,
        httpSuccess := some httpSuccess,
        httpStatusCode := some statusCode }

/-! ### `HTTPHandler.validateAndFetchWebServer` (`src/utils/dnsResolver.ts`) -/

/-- `HTTPResponse` from `types/index.ts`. -/
structure HTTPResponse where
  success : Bool
  statusCode : Int
  content : Option String := none
  message : String
deriving DecidableEq, Repr

/-- JS `p || d` for the optional numeric `port` field (`0` is falsy). -/
def jsOrInt (p : Option Int) (d : Int) : Int :=
  match p with
  | none => d
  | some v => if v = 0 then d else v

/-- `deviceTypeMap[type] || type` from `validateAndFetchWebServer`. -/
def deviceTypeName : DeviceType → String
  | DeviceType.pc => "PC"
  | DeviceType.dns => "DNS服务器"
  | DeviceType.router => "路由器"
  | t => t.str

/-- Whether `!webServer.webContent || webServer.webContent.trim() === ''`
holds (no hosted content configured). -/
def webContentMissing (w : Device) : Bool :=
  match w.webContent with
  | none => true
  | some c => c == "" || jsTrim c == ""

/-- `HTTPHandler.validateAndFetchWebServer(targetIP, requestPort,
displayName)` from `dnsResolver.ts` (lines 262–327). -/
def validateAndFetchWebServer (devices : List Device) (targetIP : String)
    (requestPort : Int) (displayName : String) : HTTPResponse :=
  match devices.find? (fun d => d.type == DeviceType.web && d.ip == targetIP) with
  | none =>
    match devices.find? (fun d => d.ip == targetIP) with
    | none =>
      { success := false, statusCode := 404,
        message := s!"❌ 目标主机不可达\n\nIP地址 {targetIP} 在网络中不存在\n\n💡 类似 Ping 提示：请求超时 (Request timeout)" }
    | some existingDevice =>
      let en := existingDevice.name
      let et := deviceTypeName existingDevice.type
      { success := false, statusCode := 503,
        message := s!"❌ 目标IP {targetIP} 不是Web服务器\n\n该设备是 {en} ({et})，无法响应HTTP请求\n\n💡 请确认访问的是Web服务器" }
  | some webServer =>
    let serverPort := jsOrInt webServer.port 80
    if requestPort ≠ serverPort then
      let wn := webServer.name
      { success := false, statusCode := 503,
        message := s!"❌ 端口错误：服务器 {wn} 监听在端口 {serverPort}，但请求访问端口 {requestPort}\n\n💡 解决方法：\n1. 修改URL端口为 :{serverPort}\n2. 或修改Web服务器监听端口为 {requestPort}" }
    else if webContentMissing webServer then
      let wn := webServer.name
      { success := false, statusCode := 204,
        message := s!"⚠️ Web服务器 {wn} 没有配置网页内容" }
    else
      { success := true, statusCode := 200, content := webServer.webContent,
        message := s!"✅ HTTP 200 OK - 成功访问 {displayName}" }

/-! ### Derived analysis definitions -/

/-- `isValidSubnetMask(mask)` from `subnetUtils.ts`: four parts in 0–255 and
membership in the fixed list of canonical masks. -/
def isValidSubnetMask (mask : String) : Bool :=
  let parts := (jsSplitDot mask).map jsNumber
  if parts.length ≠ 4 then false
  else if parts.any (fun p => match p with | none => true | some v => decide (v < 0 ∨ v > 255)) then false
  else
    ["255.255.255.0", "255.255.0.0", "255.0.0.0", "255.255.255.128", "255.255.255.192",
     "255.255.255.224", "255.255.255.240", "255.255.255.248", "255.255.255.252"].contains mask

/-- The next device the resolver's loop moves to from `d` (if the iteration
neither returns early nor succeeds): the choice made by `nextStep`, which
depends only on the current device, never on the accumulated
path/steps/visited state. -/
def chooseNext (devices : List Device) (connections : List Connection)
    (destIP : String) (showSteps : Bool) (d : Device) : Option Device :=
  match nextStep devices connections destIP showSteps
      { currentDevice := d, path := [], steps := [], visited := [], hopCount := 0 } with
  | Sum.inl _ => none
  | Sum.inr (nd, _) => some nd

/-- Rewrite every interface's configured `subnetMask` (and stored `subnet`)
with an arbitrary assignment; used to state that the resolver never reads
these fields. -/
def remaskIface (g : NetworkInterface → Option String) (iface : NetworkInterface) : NetworkInterface :=
  { iface with subnetMask := g iface, subnet := g iface }

/-- Lift `remaskIface` to a device. -/
def remaskDevice (g : NetworkInterface → Option String) (d : Device) : Device :=
  { d with interfaces := d.interfaces.map (remaskIface g) }

instance : IsTotal RouteEntry (fun a b => a.metric ≤ b.metric) :=
  ⟨fun a b => le_total a.metric b.metric⟩

instance : IsTrans RouteEntry (fun a b => a.metric ≤ b.metric) :=
  ⟨fun _ _ _ hab hbc => le_trans hab hbc⟩

/-! ### Concrete test topologies (fixtures for witnesses and counterexamples) -/

/-- A PC on the 192.168.1.0 LAN. -/
def sPC : Device :=
  { id := "pc1", name := "PC1", type := .pc, ip := "192.168.1.10",
    interfaces := [{ name := "eth0", ip := "192.168.1.10" }] }

/-- A DNS server on the same LAN with one record. -/
def sDNS : Device :=
  { id := "dns1", name := "DNS1", type := .dns, ip := "192.168.1.50",
    interfaces := [{ name := "eth0", ip := "192.168.1.50" }],
    dnsRecords := some [{ id := "rec1", domain := "www.school.com", ip := "192.168.1.80" }] }

/-- A web server on the same LAN. -/
def sWEB : Device :=
  { id := "web1", name := "WEB1", type := .web, ip := "192.168.1.80",
    interfaces := [{ name := "eth0", ip := "192.168.1.80" }],
    webContent := some "<h1>hi</h1>", port := some 80 }

/-- The LAN's router, with a single direct route. -/
def sR : Device :=
  { id := "r1", name := "R1", type := .router, ip := "192.168.1.1",
    interfaces := [{ name := "LAN", ip := "192.168.1.1" }],
    routingTable := some [{ destination := "192.168.1.0", nextHop := "直连", metric := 1, iface := "LAN" }] }

/-- Star topology: PC, DNS and web server all behind one router. -/
def starDevs : List Device := [sPC, sDNS, sWEB, sR]

/-- Connections of the star topology. -/
def starConns : List Connection :=
  [{ id := "c1", source := "pc1", target := "r1" },
   { id := "c2", source := "dns1", target := "r1" },
   { id := "c3", source := "web1", target := "r1" }]

/-- Two-router scenario from §8 of the spec: PC1 behind R1, PC2 behind R2. -/
def tPC1 : Device :=
  { id := "tpc1", name := "PC1", type := .pc, ip := "192.168.1.10",
    interfaces := [{ name := "eth0", ip := "192.168.1.10" }] }

/-- PC2 of the two-router scenario. -/
def tPC2 : Device :=
  { id := "tpc2", name := "PC2", type := .pc, ip := "192.168.2.10",
    interfaces := [{ name := "eth0", ip := "192.168.2.10" }] }

/-- R1 of the two-router scenario. -/
def tR1 : Device :=
  { id := "tr1", name := "R1", type := .router, ip := "192.168.1.1",
    interfaces := [{ name := "LAN", ip := "192.168.1.1" }, { name := "eth1", ip := "10.0.0.1" }],
    routingTable := some [{ destination := "192.168.2.0", nextHop := "R2", metric := 1, iface := "eth1" }] }

/-- R2 of the two-router scenario. -/
def tR2 : Device :=
  { id := "tr2", name := "R2", type := .router, ip := "192.168.2.1",
    interfaces := [{ name := "LAN", ip := "192.168.2.1" }, { name := "eth1", ip := "10.0.0.2" }],
    routingTable := some [{ destination := "192.168.1.0", nextHop := "R1", metric := 1, iface := "eth1" },
                          { destination := "192.168.2.0", nextHop := "直连", metric := 1, iface := "LAN" }] }

/-- Devices of the two-router scenario. -/
def twoDevs : List Device := [tPC1, tPC2, tR1, tR2]

/-- Connections of the two-router scenario. -/
def twoConns : List Connection :=
  [{ id := "tc1", source := "tpc1", target := "tr1" },
   { id := "tc2", source := "tr1", target := "tr2" },
   { id := "tc3", source := "tr2", target := "tpc2" }]

/-- Metric-1 route whose next hop `R9` does not exist (infeasible). -/
def faRoute1 : RouteEntry :=
  { destination := "192.168.5.0", nextHop := "R9", metric := 1, iface := "eth1" }

/-- Metric-2 direct route (feasible fallback). -/
def faRoute2 : RouteEntry :=
  { destination := "192.168.5.0", nextHop := "直连", metric := 2, iface := "LAN" }

/-- Router whose best route is infeasible, forcing fallback. -/
def faR : Device :=
  { id := "far", name := "RA", type := .router, ip := "192.168.5.1",
    interfaces := [{ name := "LAN", ip := "192.168.5.1" }],
    routingTable := some [faRoute1, faRoute2] }

/-- Destination PC of the fallback scenario. -/
def faPC : Device :=
  { id := "fapc", name := "PCA", type := .pc, ip := "192.168.5.20",
    interfaces := [{ name := "eth0", ip := "192.168.5.20" }] }

/-- Devices of the fallback scenario. -/
def faDevs : List Device := [faR, faPC]

/-- Connections of the fallback scenario. -/
def faConns : List Connection := [{ id := "fac1", source := "far", target := "fapc" }]

/-- Router A of a two-router routing loop (A and B route to each other). -/
def lpA : Device :=
  { id := "lpa", name := "LA", type := .router, ip := "10.8.0.1",
    interfaces := [{ name := "LAN", ip := "10.8.0.1" }],
    routingTable := some [{ destination := "99.99.99.0", nextHop := "LB", metric := 1, iface := "LAN" }] }

/-- Router B of the two-router routing loop. -/
def lpB : Device :=
  { id := "lpb", name := "LB", type := .router, ip := "10.8.0.2",
    interfaces := [{ name := "LAN", ip := "10.8.0.2" }],
    routingTable := some [{ destination := "99.99.99.0", nextHop := "LA", metric := 1, iface := "LAN" }] }

/-- Devices of the two-router loop. -/
def loopDevs : List Device := [lpA, lpB]

/-- Connection of the two-router loop. -/
def loopConns : List Connection := [{ id := "lc1", source := "lpa", target := "lpb" }]

/-- Name of the `n`-th ring router. -/
def ringName (n : Nat) : String := s!"Ring{n}"

/-- `n`-th router of an 11-router ring; every router shares the `10.7.0.0`
network and forwards `99.99.99.0` to the next ring member by name. -/
def ringRouter (n : Nat) : Device :=
  let m := (n + 1) % 11
  let k := n + 1
  { id := s!"ring{n}", name := ringName n, type := .router, ip := s!"10.7.0.{k}",
    interfaces := [{ name := "LAN", ip := s!"10.7.0.{k}" }],
    routingTable := some [{ destination := "99.99.99.0", nextHop := ringName m, metric := 1, iface := "LAN" }] }

/-- The 11 ring routers. -/
def ringDevs : List Device := (List.range 11).map ringRouter

/-- Ring connections `ring n — ring (n+1 mod 11)`. -/
def ringConns : List Connection :=
  (List.range 11).map (fun n =>
    let m := (n + 1) % 11
    { id := s!"rc{n}", source := s!"ring{n}", target := s!"ring{m}" })

/-- The routing walk of the ring topology: all eleven routers and then the
first one again (the first repeat). -/
def ringWalk : List Device := ((List.range 11).map ringRouter) ++ [ringRouter 0]

/-- Routers used by the backbone-allocation witness: indices 0 and 2 used. -/
def bbR1 : Device :=
  { id := "bb1", name := "B1", type := .router, ip := "192.168.1.1",
    interfaces := [{ name := "LAN", ip := "192.168.1.1" }, { name := "eth1", ip := "10.0.0.1" }] }

/-- Second backbone-allocation router (uses indices 0 and 2). -/
def bbR2 : Device :=
  { id := "bb2", name := "B2", type := .router, ip := "192.168.2.1",
    interfaces := [{ name := "LAN", ip := "192.168.2.1" }, { name := "eth1", ip := "10.0.0.2" },
                   { name := "eth2", ip := "10.0.2.1" }] }

/-- Devices of the backbone-allocation witness. -/
def bbDevs : List Device := [bbR1, bbR2]

/-- A web server with a port but only whitespace content. -/
def webNoContent : Device :=
  { id := "webe", name := "WEBE", type := .web, ip := "192.168.9.80",
    interfaces := [{ name := "eth0", ip := "192.168.9.80" }],
    webContent := some "   ", port := some 80 }

/-- A PC configured with a loopback address (rejected by `validateIPAddress`
but accepted by the resolver's `validateIP`). -/
def loopbackPC : Device :=
  { id := "lb1", name := "LB1", type := .pc, ip := "127.0.0.5",
    interfaces := [{ name := "eth0", ip := "127.0.0.5" }] }

/-! ## Theorems -/

/-- A dotted join of four integers is never the empty string. -/
lemma dotted4_ne_empty (a b c d : Int) : (s!"{a}.{b}.{c}.{d}" : String) ≠ "" := by
  intro h
  simp [String.ext_iff] at h

/-- C5: for every address `A` accepted by the resolver's validation such
that some device carries address `A`, `simulateRouting` from `A` to `A`
succeeds with the single-element path containing (the first) such device's
name. -/
theorem claim_C5 (devices : List Device) (connections : List Connection) (A : String) (d : Device)
    (hval : validateIP A = true)
    (hfind : devices.find? (fun x => x.ip == A) = some d) :
    (simulateRouting devices connections A A).success = true ∧
    (simulateRouting devices connections A A).path = [d.name] := by
  simp [simulateRouting, hval, hfind]

/-- Witness for C5 at the star topology and address `192.168.1.10`. -/
theorem claim_C5_witness :
    validateIP "192.168.1.10" = true ∧
    starDevs.find? (fun x => x.ip == "192.168.1.10") = some sPC ∧
    (simulateRouting starDevs starConns "192.168.1.10" "192.168.1.10").success = true ∧
    (simulateRouting starDevs starConns "192.168.1.10" "192.168.1.10").path = [sPC.name] := by
  refine ⟨by decide, by decide, ?_, ?_⟩
  · exact (claim_C5 starDevs starConns "192.168.1.10" sPC (by decide) (by decide)).1
  · exact (claim_C5 starDevs starConns "192.168.1.10" sPC (by decide) (by decide)).2

/-- C3 (amended): `simulateRouting` fails early with the malformed-address
failure exactly when an address fails its own `validateIP` check (four
dot-parts parsing to 0–255); the stricter `validateIPAddress` octet rules
(first octet not 0/127/255, last octet not 0/255) are not enforced by the
resolver. -/
theorem claim_C3 (devices : List Device) (connections : List Connection)
    (sourceIP destIP : String) (showSteps : Bool) :
    (validateIP sourceIP = false →
      simulateRouting devices connections sourceIP destIP showSteps =
        { success := false, path := [], message := s!"❌ 源IP地址格式错误: {sourceIP}", steps := [] }) ∧
    (validateIP sourceIP = true → validateIP destIP = false →
      simulateRouting devices connections sourceIP destIP showSteps =
        { success := false, path := [], message := s!"❌ 目标IP地址格式错误: {destIP}", steps := [] }) := by
  constructor
  · intro h
    simp [simulateRouting, h]
  · intro h1 h2
    simp [simulateRouting, h1, h2]

/-- Counterexample to C3 as stated: `127.0.0.5` fails `validateIPAddress`
(loopback first octet), yet `simulateRouting` does not fail with a
malformed-address failure — it succeeds. -/
theorem claim_C3_counterexample :
    validateIPAddress "127.0.0.5" = false ∧
    simulateRouting [loopbackPC] [] "127.0.0.5" "127.0.0.5" =
      { success := true, path := ["LB1"], message := "✅ 源和目标是同一设备", steps := [] } := by
  exact ⟨by decide, by decide⟩

/-- Witness for C3 at the malformed source address `1.2.3`. -/
theorem claim_C3_witness :
    validateIP "1.2.3" = false ∧
    simulateRouting starDevs starConns "1.2.3" "4.5.6.7" false =
      { success := false, path := [], message := "❌ 源IP地址格式错误: 1.2.3", steps := [] } :=
  ⟨by decide, (claim_C3 starDevs starConns "1.2.3" "4.5.6.7" false).1 (by decide)⟩

/-- C6 (amended): `deriveSubnet` returns the octet-wise JS bitwise AND
whenever both address and mask split into exactly four dot-parts (a
non-numeric part acting as `0` via `NaN` coercion, not triggering the
fallback); when the parts counts differ from four it falls back to the
address's first three dot-parts followed by `.0` provided the address has
at least three parts, and to `0.0.0.0` only when it has fewer than three. -/
theorem claim_C6 (ip mask : String) :
    (∀ (i0 i1 i2 i3 m0 m1 m2 m3 : Option Int) (s0 s1 s2 s3 : Int),
      (jsSplitDot ip).map jsNumber = [i0, i1, i2, i3] →
      (jsSplitDot mask).map jsNumber = [m0, m1, m2, m3] →
      s0 = jsAnd i0 m0 → s1 = jsAnd i1 m1 → s2 = jsAnd i2 m2 → s3 = jsAnd i3 m3 →
      deriveSubnet ip mask = s!"{s0}.{s1}.{s2}.{s3}") ∧
    (¬ ((jsSplitDot ip).length = 4 ∧ (jsSplitDot mask).length = 4) →
      3 ≤ (jsSplitDot ip).length →
      ∀ p0 p1 p2 : String,
        (jsSplitDot ip).getD 0 jsUndefined = p0 →
        (jsSplitDot ip).getD 1 jsUndefined = p1 →
        (jsSplitDot ip).getD 2 jsUndefined = p2 →
        deriveSubnet ip mask = s!"{p0}.{p1}.{p2}.0") ∧
    (¬ ((jsSplitDot ip).length = 4 ∧ (jsSplitDot mask).length = 4) →
      (jsSplitDot ip).length < 3 →
      deriveSubnet ip mask = "0.0.0.0") := by
  refine ⟨?_, ?_, ?_⟩
  · intro i0 i1 i2 i3 m0 m1 m2 m3 s0 s1 s2 s3 h1 h2 e0 e1 e2 e3
    have hcalc : calculateSubnet ip mask = s!"{s0}.{s1}.{s2}.{s3}" := by
      subst e0 e1 e2 e3
      simp [calculateSubnet, h1, h2]
    simp [deriveSubnet, hcalc, dotted4_ne_empty]
  · intro hlen h3 p0 p1 p2 e0 e1 e2
    subst e0 e1 e2
    have hcalc : calculateSubnet ip mask = "" := by
      simp only [calculateSubnet]
      rw [if_pos]
      simp only [List.length_map]
      omega
    simp [deriveSubnet, hcalc, h3]
  · intro hlen h3
    have hcalc : calculateSubnet ip mask = "" := by
      simp only [calculateSubnet]
      rw [if_pos]
      simp only [List.length_map]
      omega
    simp [deriveSubnet, hcalc]
    omega

/-- Counterexample to C6 as stated: the malformed mask `255.a.255.0` (four
parts, one non-numeric) does not trigger the first-three-octets fallback —
the `NaN` part is ANDed as `0`, giving `192.0.1.0`; and the unparseable
address `1.2.3` falls back to `1.2.3.0`, not `0.0.0.0`. -/
theorem claim_C6_counterexample :
    isValidSubnetMask "255.a.255.0" = false ∧
    deriveSubnet "192.168.1.10" "255.a.255.0" = "192.0.1.0" ∧
    "192.0.1.0" ≠ "192.168.1.0" ∧
    (jsSplitDot "1.2.3").length ≠ 4 ∧
    deriveSubnet "1.2.3" "255.255.255.0" = "1.2.3.0" ∧
    "1.2.3.0" ≠ "0.0.0.0" := by decide

/-- Splitting a ≥-filter of an integer list at the lower bound. -/
lemma filter_ge_split (l : List Int) (i : Int) :
    (l.filter (fun m => i ≤ m)).length = (l.filter (fun m => i + 1 ≤ m)).length + l.count i := by
  induction l with
  | nil => simp
  | cons a t ih =>
    simp only [List.filter, List.count_cons]
    by_cases h1 : i + 1 ≤ a
    · have h2 : i ≤ a := by omega
      have h3 : ¬ (a == i) = true := by simp; omega
      simp [h1, h2, h3, ih]
      omega
    · by_cases h2 : i ≤ a
      · have h3 : a = i := by omega
        simp [h1, h2, h3, ih]
        omega
      · have h3 : ¬ (a == i) = true := by simp; omega
        simp [h1, h2, h3, ih]

/-- The backbone index scan returns the least index `≥ index` not in `used`,
given enough fuel. -/
lemma firstFreeScan_spec (used : List Int) :
    ∀ (fuel index : Nat), (used.filter (fun m => (index : Int) ≤ m)).length < fuel →
      (¬ ((firstFreeScan used fuel index : Int) ∈ used)) ∧
      (index ≤ firstFreeScan used fuel index) ∧
      (∀ k : Nat, index ≤ k → k < firstFreeScan used fuel index → ((k : Int) ∈ used)) := by
  intro fuel
  induction fuel with
  | zero => intro index h; omega
  | succ fuel ih =>
    intro index h
    by_cases hmem : ((index : Int) ∈ used)
    · have hcount : 0 < used.count (index : Int) := List.count_pos_iff.mpr hmem
      have hsplit := filter_ge_split used (index : Int)
      have hlt : (used.filter (fun m => ((index + 1 : Nat) : Int) ≤ m)).length < fuel := by
        push_cast
        omega
      have hrec := ih (index + 1) hlt
      have hscan : firstFreeScan used (fuel + 1) index = firstFreeScan used fuel (index + 1) := by
        simp [firstFreeScan, hmem]
      refine ⟨by rw [hscan]; exact hrec.1, by rw [hscan]; omega, ?_⟩
      intro k hk1 hk2
      rw [hscan] at hk2
      by_cases hk : k = index
      · rw [hk]; exact hmem
      · exact hrec.2.2 k (by omega) hk2
    · have hscan : firstFreeScan used (fuel + 1) index = index := by
        simp [firstFreeScan, hmem]
      rw [hscan]
      exact ⟨hmem, le_refl _, fun k h1 h2 => absurd (lt_of_le_of_lt h1 h2) (lt_irrefl _)⟩

/-- C7: `allocateBackboneNetwork` picks the lowest backbone index `N` not
used by any existing router backbone (non-`LAN`) interface whose address
starts `10.0`, allocates `10.0.N.0` (with host addresses `.1`/`.2`), and the
allocated index differs from the index of every existing backbone
interface. -/
theorem claim_C7 (devices : List Device) (N : Nat)
    (hN : N = firstFreeScan (collectUsedBackboneIndices devices)
            ((collectUsedBackboneIndices devices).length + 1) 0) :
    allocateBackboneNetwork devices =
      { subnet := s!"10.0.{N}.0", sourceIP := s!"10.0.{N}.1", targetIP := s!"10.0.{N}.2" } ∧
    ¬ ((N : Int) ∈ collectUsedBackboneIndices devices) ∧
    (∀ k : Nat, k < N → ((k : Int) ∈ collectUsedBackboneIndices devices)) ∧
    (∀ d ∈ devices, d.type = DeviceType.router →
      ∀ iface ∈ d.interfaces, iface.ip ≠ "" → iface.name ≠ "LAN" →
      3 ≤ (jsSplitDot iface.ip).length →
      (jsSplitDot iface.ip).getD 0 "" = "10" →
      (jsSplitDot iface.ip).getD 1 "" = "0" →
      ∀ m : Int, jsNumber ((jsSplitDot iface.ip).getD 2 "") = some m →
      m ≠ (N : Int)) := by
  have hspec := firstFreeScan_spec (collectUsedBackboneIndices devices)
    ((collectUsedBackboneIndices devices).length + 1) 0
    (by have := List.length_filter_le (fun m => ((0 : Nat) : Int) ≤ m) (collectUsedBackboneIndices devices); omega)
  rw [← hN] at hspec
  refine ⟨by rw [hN]; rfl, hspec.1, fun k hk => hspec.2.2 k (Nat.zero_le k) hk, ?_⟩
  intro d hd hrtr iface hiface hip hname hlen h0 h1 m hm
  intro hcontra
  apply hspec.1
  rw [← hcontra]
  unfold collectUsedBackboneIndices
  rw [List.mem_flatMap]
  refine ⟨d, hd, ?_⟩
  rw [if_neg (by simp [hrtr])]
  rw [List.mem_flatMap]
  refine ⟨iface, hiface, ?_⟩
  have hb1 : (iface.ip == "") = false := by simp [hip]
  have hb2 : (iface.name == "LAN") = false := by simp [hname]
  have hlt : ¬ ((jsSplitDot iface.ip).length < 3) := by omega
  simp only [List.getD, List.get?_eq_getElem?] at h0 h1 hm
  simp [hb1, hb2, hlt, h0, h1, hm]

/-- Witness for C7: with backbone indices 0 and 2 in use, index 1 is
allocated. -/
theorem claim_C7_witness :
    allocateBackboneNetwork bbDevs =
      { subnet := "10.0.1.0", sourceIP := "10.0.1.1", targetIP := "10.0.1.2" } ∧
    ¬ ((1 : Int) ∈ collectUsedBackboneIndices bbDevs) ∧
    ((0 : Int) ∈ collectUsedBackboneIndices bbDevs) := by
  have h := claim_C7 bbDevs 1 (by decide)
  exact ⟨h.1, h.2.1, by exact_mod_cast h.2.2.1 0 (by omega)⟩

/-- C8: when an HTTP request reaches a web server whose requested port
matches its listen port but whose hosted content is empty or absent, the
HTTP layer returns the distinct 204 "no content configured" outcome; and 204
arises from no other branch of `validateAndFetchWebServer` (hard failures use
404/503, success uses 200), so the outcome is distinguishable from the
wrong-device-kind and port-mismatch failures. -/
theorem claim_C8 (devices : List Device) (targetIP : String) (requestPort : Int)
    (displayName : String) (w : Device) (wn : String)
    (hfind : devices.find? (fun d => d.type == DeviceType.web && d.ip == targetIP) = some w)
    (hport : requestPort = jsOrInt w.port 80)
    (hcontent : webContentMissing w = true)
    (hwn : wn = w.name) :
    validateAndFetchWebServer devices targetIP requestPort displayName =
      { success := false, statusCode := 204, content := none,
        message := s!"⚠️ Web服务器 {wn} 没有配置网页内容" } ∧
    (∀ (ds : List Device) (tIP : String) (p : Int) (dn : String),
      (validateAndFetchWebServer ds tIP p dn).statusCode = 204 →
      ∃ w2, ds.find? (fun d => d.type == DeviceType.web && d.ip == tIP) = some w2 ∧
        p = jsOrInt w2.port 80 ∧ webContentMissing w2 = true) := by
  constructor
  · subst hwn hport
    simp [validateAndFetchWebServer, hfind, hcontent]
  · intro ds tIP p dn h
    simp only [validateAndFetchWebServer] at h
    cases hf : ds.find? (fun d => d.type == DeviceType.web && d.ip == tIP) with
    | none =>
      rw [hf] at h
      dsimp only [] at h
      cases hf2 : ds.find? (fun d => d.ip == tIP) with
      | none => rw [hf2] at h; simp at h
      | some e => rw [hf2] at h; simp at h
    | some w2 =>
      rw [hf] at h
      dsimp only [] at h
      by_cases hp : p ≠ jsOrInt w2.port 80
      · rw [if_pos hp] at h; simp at h
      · rw [if_neg hp] at h
        by_cases hc : webContentMissing w2 = true
        · exact ⟨w2, rfl, not_ne_iff.mp hp, hc⟩
        · rw [if_neg (by simp [hc])] at h
          simp at h

/-- Witness for C8 at a web server with whitespace-only content. -/
theorem claim_C8_witness :
    [webNoContent].find? (fun d => d.type == DeviceType.web && d.ip == "192.168.9.80") = some webNoContent ∧
    (80 : Int) = jsOrInt webNoContent.port 80 ∧
    webContentMissing webNoContent = true ∧
    validateAndFetchWebServer [webNoContent] "192.168.9.80" 80 "site" =
      { success := false, statusCode := 204, content := none,
        message := "⚠️ Web服务器 WEBE 没有配置网页内容" } := by
  refine ⟨by decide, by decide, by decide, ?_⟩
  exact (claim_C8 [webNoContent] "192.168.9.80" 80 "site" webNoContent "WEBE"
    (by decide) (by decide) (by decide) (by decide)).1

/-- If the first feasible candidate sits at index `i`, the trial loop
returns it together with the failure records of all earlier candidates. -/
lemma tryRoutes_first_feasible (devices : List Device) (connections : List Connection)
    (currentDevice : Device) (destIP destNetwork : String) :
    ∀ (l : List RouteEntry) (acc : List FailedRoute) (i : Nat) (hi : i < l.length),
      routeFailure devices connections currentDevice destIP destNetwork (l.get ⟨i, hi⟩) = none →
      (∀ j, (hj : j < i) → (routeFailure devices connections currentDevice destIP destNetwork (l.get ⟨j, by omega⟩)).isSome = true) →
      tryRoutes devices connections currentDevice destIP destNetwork l acc =
        (some (l.get ⟨i, hi⟩),
         acc ++ (l.take i).filterMap (routeFailure devices connections currentDevice destIP destNetwork)) := by
  intro l
  induction l with
  | nil => intro acc i hi; simp at hi
  | cons r rest ih =>
    intro acc i hi hfeas hfail
    cases i with
    | zero =>
      simp only [List.get] at hfeas
      simp [tryRoutes, hfeas]
    | succ i =>
      have h0 := hfail 0 (Nat.succ_pos i)
      simp only [List.get] at h0
      obtain ⟨f, hf⟩ := Option.isSome_iff_exists.mp h0
      simp only [List.get] at hfeas
      have hrec := ih (acc ++ [f]) i (by simpa using hi) hfeas
        (fun j hj => by
          have := hfail (j + 1) (by omega)
          simpa using this)
      simp only [tryRoutes, hf]
      rw [hrec]
      simp [hf, List.append_assoc]

/-- C1: at a router hop the matching candidates are sorted ascending by
`metric` (stably, as a permutation of the matching set) and tried in that
order; if route `i` (0-indexed here) is the first feasible one, the trial
loop chooses exactly route `i` and records routes `0..i-1` as failed
attempts, each with its specific reason (the `FailedRoute` records produced
by `routeFailure`). -/
theorem claim_C1 (devices : List Device) (connections : List Connection)
    (currentDevice : Device) (destIP destNetwork : String)
    (matching : List RouteEntry) (i : Nat) (hi : i < (sortRoutes matching).length)
    (hfeas : routeFailure devices connections currentDevice destIP destNetwork
      ((sortRoutes matching).get ⟨i, hi⟩) = none)
    (hfail : ∀ j, (hj : j < i) → (routeFailure devices connections currentDevice destIP destNetwork
      ((sortRoutes matching).get ⟨j, by omega⟩)).isSome = true) :
    List.Sorted (fun a b => a.metric ≤ b.metric) (sortRoutes matching) ∧
    (sortRoutes matching).Perm matching ∧
    tryRoutes devices connections currentDevice destIP destNetwork (sortRoutes matching) [] =
      (some ((sortRoutes matching).get ⟨i, hi⟩),
       ((sortRoutes matching).take i).filterMap
         (routeFailure devices connections currentDevice destIP destNetwork)) := by
  refine ⟨List.sorted_insertionSort _ _, List.perm_insertionSort _ _, ?_⟩
  have h := tryRoutes_first_feasible devices connections currentDevice destIP destNetwork
    (sortRoutes matching) [] i hi hfeas hfail
  simpa using h

/-- Witness for C1: the metric-1 route to the nonexistent router `R9` fails
with its reason, and the metric-2 direct route is chosen; end to end, the
resolver succeeds with the fallback step recorded. -/
theorem claim_C1_witness :
    sortRoutes [faRoute1, faRoute2] = [faRoute1, faRoute2] ∧
    routeFailure faDevs faConns faR "192.168.5.20" "192.168.5.0" faRoute2 = none ∧
    (routeFailure faDevs faConns faR "192.168.5.20" "192.168.5.0" faRoute1).isSome = true ∧
    tryRoutes faDevs faConns faR "192.168.5.20" "192.168.5.0" (sortRoutes [faRoute1, faRoute2]) [] =
      (some faRoute2, [{ nextHop := "R9", metric := 1, reason := "下一站路由器不存在" }]) ∧
    (simulateRouting faDevs faConns "192.168.5.1" "192.168.5.20" true).success = true ∧
    (simulateRouting faDevs faConns "192.168.5.1" "192.168.5.20" true).steps =
      [{ router := "RA",
         action := "⚠️ 最优路由不可用 [R9(权重1)]，使用备用路由: 直连(权重2)",
         routeEntry := some faRoute2 }] := by
  refine ⟨by decide, by decide, by decide, ?_, by decide, by decide⟩
  exact (claim_C1 faDevs faConns faR "192.168.5.20" "192.168.5.0" [faRoute1, faRoute2] 1
    (by decide) (by decide) (by
      intro j hj
      interval_cases j
      show (routeFailure faDevs faConns faR "192.168.5.20" "192.168.5.0" faRoute1).isSome = true
      decide)).2.2

/-- C4: whenever the request-phase path resolution succeeds and the wrapper
populates the round-trip fields, the DNS and HTTP layers both set
`responsePath` to the element-wise reverse of `requestPath`. -/
theorem claim_C4 (devices : List Device) (connections : List Connection)
    (sourceIP dnsServerIP domain targetIP : String) (hs : Bool) (sc : Int) :
    ((simulateRouting devices connections sourceIP dnsServerIP).success = true →
     (dnsQueryResult devices connections sourceIP dnsServerIP domain).isRoundTrip = some true →
     (dnsQueryResult devices connections sourceIP dnsServerIP domain).responsePath =
       Option.map List.reverse (dnsQueryResult devices connections sourceIP dnsServerIP domain).requestPath) ∧
    ((simulateRouting devices connections sourceIP targetIP).success = true →
     (httpRequestResult devices connections sourceIP targetIP hs sc).isRoundTrip = some true →
     (httpRequestResult devices connections sourceIP targetIP hs sc).responsePath =
       Option.map List.reverse (httpRequestResult devices connections sourceIP targetIP hs sc).requestPath) := by
  constructor
  · intro hsucc hrt
    cases h1 : devices.find? (fun d => d.ip == sourceIP) with
    | none => simp [dnsQueryResult, h1] at hrt
    | some sd =>
      cases h2 : devices.find? (fun d => d.type == DeviceType.dns && d.ip == dnsServerIP) with
      | none => simp [dnsQueryResult, h1, h2] at hrt
      | some dd =>
        by_cases hp : (simulateRouting devices connections sourceIP dnsServerIP).path = []
        · simp only [dnsQueryResult, h1, h2]
          simp [hp, hsucc]
        · by_cases hc : ((simulateRouting devices connections sourceIP dnsServerIP).path.getLast?.getD "") = dd.name
          · simp only [dnsQueryResult, h1, h2]
            simp [hp, hc, hsucc]
          · simp [dnsQueryResult, h1, h2, hp, hc, hsucc] at hrt
  · intro hsucc hrt
    cases h1 : devices.find? (fun d => d.ip == targetIP) with
    | none => simp [httpRequestResult, h1] at hrt
    | some td =>
      by_cases h0 : (td.type == DeviceType.web) = false
      · simp [httpRequestResult, h1, h0] at hrt
      · by_cases hp : (simulateRouting devices connections sourceIP targetIP).path = []
        · simp only [httpRequestResult, h1]
          simp [h0, hp, hsucc]
        · by_cases hc : ((simulateRouting devices connections sourceIP targetIP).path.getLast?.getD "") = td.name
          · simp only [httpRequestResult, h1]
            simp [h0, hp, hc, hsucc]
          · simp [httpRequestResult, h1, h0, hp, hc, hsucc] at hrt

/-- Witness for C4 at the star topology: DNS query and HTTP request both
succeed with `responsePath` the reverse of `requestPath`. -/
theorem claim_C4_witness :
    (simulateRouting starDevs starConns "192.168.1.10" "192.168.1.50").success = true ∧
    (dnsQueryResult starDevs starConns "192.168.1.10" "192.168.1.50" "www.school.com").isRoundTrip = some true ∧
    (dnsQueryResult starDevs starConns "192.168.1.10" "192.168.1.50" "www.school.com").requestPath =
      some ["PC1", "R1", "DNS1"] ∧
    (dnsQueryResult starDevs starConns "192.168.1.10" "192.168.1.50" "www.school.com").responsePath =
      Option.map List.reverse
        (dnsQueryResult starDevs starConns "192.168.1.10" "192.168.1.50" "www.school.com").requestPath ∧
    (simulateRouting starDevs starConns "192.168.1.10" "192.168.1.80").success = true ∧
    (httpRequestResult starDevs starConns "192.168.1.10" "192.168.1.80" true 200).isRoundTrip = some true ∧
    (httpRequestResult starDevs starConns "192.168.1.10" "192.168.1.80" true 200).responsePath =
      Option.map List.reverse
        (httpRequestResult starDevs starConns "192.168.1.10" "192.168.1.80" true 200).requestPath := by
  refine ⟨by decide, by decide, by decide, ?_, by decide, by decide, ?_⟩
  · exact (claim_C4 starDevs starConns "192.168.1.10" "192.168.1.50" "www.school.com"
      "192.168.1.80" true 200).1 (by decide) (by decide)
  · exact (claim_C4 starDevs starConns "192.168.1.10" "192.168.1.50" "www.school.com"
      "192.168.1.80" true 200).2 (by decide) (by decide)

/-- Witness for C6: the three branches at concrete inputs. -/
theorem claim_C6_witness :
    deriveSubnet "192.168.1.10" "255.255.255.0" = "192.168.1.0" ∧
    deriveSubnet "192.168.1.10" "255.255.255" = "192.168.1.0" ∧
    deriveSubnet "1.2" "255.255.255" = "0.0.0.0" := by
  refine ⟨?_, ?_, ?_⟩
  · exact (claim_C6 "192.168.1.10" "255.255.255.0").1
      (some 192) (some 168) (some 1) (some 10) (some 255) (some 255) (some 255) (some 0)
      192 168 1 0 (by decide) (by decide) (by decide) (by decide) (by decide) (by decide)
  · exact (claim_C6 "192.168.1.10" "255.255.255").2.1 (by decide) (by decide)
      "192" "168" "1" (by decide) (by decide) (by decide)
  · exact (claim_C6 "1.2" "255.255.255").2.2 (by decide) (by decide)

/-- Remasking preserves interface-network membership tests. -/
lemma remask_any_getNetwork (g : NetworkInterface → Option String) (d : Device) (net : String) :
    (remaskDevice g d).interfaces.any (fun i => getNetwork i.ip == net) =
      d.interfaces.any (fun i => getNetwork i.ip == net) := by
  simp only [remaskDevice, List.any_map]
  rfl

/-- Remasking preserves interface-IP membership tests. -/
lemma remask_any_ipeq (g : NetworkInterface → Option String) (d : Device) (s : String) :
    (remaskDevice g d).interfaces.any (fun i => i.ip == s) =
      d.interfaces.any (fun i => i.ip == s) := by
  simp only [remaskDevice, List.any_map]
  rfl

/-- Remasking preserves the common-subnet check between two routers. -/
lemma remask_any_common (g : NetworkInterface → Option String) (a b : Device) :
    (remaskDevice g a).interfaces.any (fun ci =>
        (remaskDevice g b).interfaces.any (fun ni => getNetwork ci.ip == getNetwork ni.ip)) =
      a.interfaces.any (fun ci => b.interfaces.any (fun ni => getNetwork ci.ip == getNetwork ni.ip)) := by
  simp only [remaskDevice, List.any_map]
  rfl

/-- Device lookup by IP commutes with remasking. -/
lemma find_ip_remask (g : NetworkInterface → Option String) (devices : List Device) (ip : String) :
    (devices.map (remaskDevice g)).find? (fun d => d.ip == ip) =
      (devices.find? (fun d => d.ip == ip)).map (remaskDevice g) := by
  rw [List.find?_map]
  rfl

/-- Gateway lookup commutes with remasking. -/
lemma find_gateway_remask (g : NetworkInterface → Option String) (devices : List Device) (net : String) :
    (devices.map (remaskDevice g)).find? (fun d =>
        d.type == DeviceType.router && d.interfaces.any (fun iface => getNetwork iface.ip == net)) =
      (devices.find? (fun d =>
        d.type == DeviceType.router && d.interfaces.any (fun iface => getNetwork iface.ip == net))).map (remaskDevice g) := by
  rw [List.find?_map]
  have hp : ((fun d => d.type == DeviceType.router && d.interfaces.any (fun iface => getNetwork iface.ip == net)) ∘ remaskDevice g) =
      (fun d : Device => d.type == DeviceType.router && d.interfaces.any (fun iface => getNetwork iface.ip == net)) := by
    funext d
    show ((remaskDevice g d).type == DeviceType.router &&
      (remaskDevice g d).interfaces.any (fun iface => getNetwork iface.ip == net)) = _
    rw [remask_any_getNetwork]
    rfl
  rw [hp]

/-- Next-hop router lookup commutes with remasking. -/
lemma findNextRouter_remask (g : NetworkInterface → Option String) (devices : List Device) (nh : String) :
    findNextRouter (devices.map (remaskDevice g)) nh = (findNextRouter devices nh).map (remaskDevice g) := by
  unfold findNextRouter
  rw [List.find?_map, List.find?_map]
  have e2 : ((fun d => d.type == DeviceType.router && d.interfaces.any (fun iface => iface.ip == nh)) ∘ remaskDevice g)
      = (fun d : Device => d.type == DeviceType.router && d.interfaces.any (fun iface => iface.ip == nh)) := by
    funext d
    show ((remaskDevice g d).type == DeviceType.router &&
      (remaskDevice g d).interfaces.any (fun iface => iface.ip == nh)) = _
    rw [remask_any_ipeq]
    rfl
  rw [e2]
  have e1 : ((fun d => d.name == nh) ∘ remaskDevice g) = (fun d : Device => d.name == nh) := rfl
  rw [e1]
  cases devices.find? (fun d : Device => d.name == nh) <;> rfl



/-- A candidate route's feasibility and failure record ignore masks. -/
lemma routeFailure_remask (g : NetworkInterface → Option String) (devices : List Device)
    (conns : List Connection) (cur : Device) (destIP destNetwork : String) (r : RouteEntry) :
    routeFailure (devices.map (remaskDevice g)) conns (remaskDevice g cur) destIP destNetwork r =
      routeFailure devices conns cur destIP destNetwork r := by
  unfold routeFailure
  by_cases hd : isDirectSentinel r.nextHop = true
  · simp only [hd, if_true]
    rw [find_ip_remask]
    cases hdd : devices.find? (fun d => d.ip == destIP) with
    | none => rfl
    | some dd =>
      dsimp only [Option.map]
      rw [remask_any_getNetwork]
      rw [show hasPhysicalConnection (remaskDevice g cur) (remaskDevice g dd) conns =
        hasPhysicalConnection cur dd conns from rfl]
  · simp only [hd, Bool.false_eq_true, if_false]
    rw [findNextRouter_remask]
    cases hnr : findNextRouter devices r.nextHop with
    | none => rfl
    | some nr =>
      dsimp only [Option.map]
      rw [show (remaskDevice g nr).type = nr.type from rfl]
      rw [show hasPhysicalConnection (remaskDevice g cur) (remaskDevice g nr) conns =
        hasPhysicalConnection cur nr conns from rfl]
      rw [remask_any_common]

/-- The candidate-trial loop ignores masks. -/
lemma tryRoutes_remask (g : NetworkInterface → Option String) (devices : List Device)
    (conns : List Connection) (cur : Device) (destIP destNetwork : String) :
    ∀ (l : List RouteEntry) (acc : List FailedRoute),
      tryRoutes (devices.map (remaskDevice g)) conns (remaskDevice g cur) destIP destNetwork l acc =
        tryRoutes devices conns cur destIP destNetwork l acc := by
  intro l
  induction l with
  | nil => intro acc; rfl
  | cons r rest ih =>
    intro acc
    simp only [tryRoutes, routeFailure_remask]
    cases routeFailure devices conns cur destIP destNetwork r with
    | none => rfl
    | some f => exact ih (acc ++ [f])



/-- One resolver iteration ignores masks: it returns the same early result,
or moves to the same (remasked) next device with the same steps. -/
lemma nextStep_remask (g : NetworkInterface → Option String) (devices : List Device)
    (conns : List Connection) (destIP : String) (ss : Bool) (st : LoopState) :
    nextStep (devices.map (remaskDevice g)) conns destIP ss
      { st with currentDevice := remaskDevice g st.currentDevice } =
    Sum.map id (fun p => (remaskDevice g p.1, p.2)) (nextStep devices conns destIP ss st) := by
  obtain ⟨cur, path, steps, visited, hop⟩ := st
  unfold nextStep
  dsimp only []
  by_cases ht : cur.type = DeviceType.router
  · rw [if_neg (show ¬ ¬ (remaskDevice g cur).type = DeviceType.router from not_not_intro ht),
        if_neg (show ¬ ¬ cur.type = DeviceType.router from not_not_intro ht)]
    rw [show (remaskDevice g cur).name = cur.name from rfl,
        show (remaskDevice g cur).routingTable = cur.routingTable from rfl]
    cases hrt : cur.routingTable with
    | none => rfl
    | some table =>
      dsimp only [Option.getD]
      by_cases hemp : table.isEmpty = true
      · rw [if_pos hemp]
        rw [if_pos hemp]
        rfl
      · rw [if_neg hemp]
        rw [if_neg hemp]
        rw [tryRoutes_remask]
        by_cases hme : (if (table.filter (fun r => r.destination == destIP)).isEmpty = true
              then table.filter (fun r => r.destination == getNetwork destIP)
              else table.filter (fun r => r.destination == destIP)).isEmpty = true
        · rw [if_pos hme]
          rw [if_pos hme]
          rfl
        · rw [if_neg hme]
          rw [if_neg hme]
          cases htr : tryRoutes devices conns cur destIP (getNetwork destIP)
            (sortRoutes (if (table.filter (fun r => r.destination == destIP)).isEmpty
              then table.filter (fun r => r.destination == getNetwork destIP)
              else table.filter (fun r => r.destination == destIP))) [] with
          | mk routeOpt failed =>
            cases routeOpt with
            | none => rfl
            | some route =>
              dsimp only []
              by_cases hds : isDirectSentinel route.nextHop = true
              · rw [if_pos hds]
                rw [if_pos hds]
                rw [find_ip_remask]
                cases hdd : devices.find? (fun d => d.ip == destIP) with
                | none => rfl
                | some dd => dsimp only [Option.map]; rfl
              · rw [if_neg hds]
                rw [if_neg hds]
                rw [findNextRouter_remask]
                cases hnr : findNextRouter devices route.nextHop with
                | none => rfl
                | some nr => dsimp only [Option.map]; rfl
  · rw [if_pos (show ¬ (remaskDevice g cur).type = DeviceType.router from ht),
        if_pos (show ¬ cur.type = DeviceType.router from ht)]
    rw [show getNetwork (remaskDevice g cur).ip = getNetwork cur.ip from rfl]
    rw [find_gateway_remask]
    cases hgw : devices.find? (fun d =>
        d.type == DeviceType.router && d.interfaces.any (fun iface => getNetwork iface.ip == getNetwork cur.ip)) with
    | none => rfl
    | some gw =>
      dsimp only [Option.map]
      by_cases hpc : hasPhysicalConnection cur gw conns = true
      · rw [if_neg (show ¬ ¬ hasPhysicalConnection (remaskDevice g cur) (remaskDevice g gw) conns = true
              from not_not_intro hpc),
            if_neg (not_not_intro hpc)]
        rfl
      · rw [if_pos (show ¬ hasPhysicalConnection (remaskDevice g cur) (remaskDevice g gw) conns = true
              from hpc),
            if_pos hpc]
        rfl



/-- The resolver loop ignores masks. -/
lemma routeLoop_remask (g : NetworkInterface → Option String) (devices : List Device)
    (conns : List Connection) (destIP : String) (ss : Bool) :
    ∀ (fuel : Nat) (st : LoopState),
      routeLoop (devices.map (remaskDevice g)) conns destIP ss fuel
        { st with currentDevice := remaskDevice g st.currentDevice } =
      routeLoop devices conns destIP ss fuel st := by
  intro fuel
  induction fuel with
  | zero => intro st; rfl
  | succ fuel ih =>
    intro st
    obtain ⟨cur, path, steps, visited, hop⟩ := st
    simp only [routeLoop]
    rw [show ((remaskDevice g cur).ip == destIP) = (cur.ip == destIP) from rfl]
    by_cases hdst : (cur.ip == destIP) = true
    · rw [if_pos hdst]
      rw [if_pos hdst]
    · rw [if_neg hdst]
      rw [if_neg hdst]
      have hns := nextStep_remask g devices conns destIP ss ⟨cur, path, steps, visited, hop⟩
      rw [hns]
      cases hstep : nextStep devices conns destIP ss ⟨cur, path, steps, visited, hop⟩ with
      | inl r => rfl
      | inr pr =>
        obtain ⟨nd, steps'⟩ := pr
        dsimp only [Sum.map, Sum.elim, Function.comp]
        rw [show (remaskDevice g nd).id = nd.id from rfl,
            show (remaskDevice g nd).name = nd.name from rfl]
        by_cases hv : visited.contains nd.id = true
        · rw [if_pos hv]
          rw [if_pos hv]
        · rw [if_neg hv]
          rw [if_neg hv]
          exact ih ⟨nd, path ++ [nd.name], steps', visited ++ [nd.id], hop + 1⟩

/-- C9: every subnet comparison in the resolver is the fixed /24 `getNetwork`
(first three dot-parts followed by `.0`), and the resolver's result is
invariant under arbitrary rewriting of every interface's configured
`subnetMask`/`subnet`. -/
theorem claim_C9 (devices : List Device) (connections : List Connection)
    (sourceIP destIP : String) (showSteps : Bool) (g : NetworkInterface → Option String) :
    (simulateRouting (devices.map (remaskDevice g)) connections sourceIP destIP showSteps =
      simulateRouting devices connections sourceIP destIP showSteps) ∧
    (∀ (ip p0 p1 p2 : String) (rest : List String),
      jsSplitDot ip = p0 :: p1 :: p2 :: rest →
      getNetwork ip = s!"{p0}.{p1}.{p2}.0") := by
  constructor
  · unfold simulateRouting
    by_cases h1 : validateIP sourceIP = true
    · by_cases h2 : validateIP destIP = true
      · simp only [h1, h2]
        rw [find_ip_remask]
        cases hsd : devices.find? (fun d => d.ip == sourceIP) with
        | none => rfl
        | some sd =>
          dsimp only [Option.map]
          by_cases hsame : (sourceIP == destIP) = true
          · rw [if_pos hsame]
            rw [if_pos hsame]
            rfl
          · rw [if_neg hsame]
            rw [if_neg hsame]
            rw [show (remaskDevice g sd).name = sd.name from rfl,
                show (remaskDevice g sd).id = sd.id from rfl]
            exact routeLoop_remask g devices connections destIP showSteps maxHops
              ⟨sd, [sd.name], [], [sd.id], 0⟩
      · simp [h1, h2]
    · simp [h1]
  · intro ip p0 p1 p2 rest hsplit
    unfold getNetwork
    rw [hsplit]
    rfl

/-- Witness for C9: remasking the two-router scenario to /16 masks does not
change the resolver result, and `getNetwork` at a concrete address is the
first three octets plus `.0`. -/
theorem claim_C9_witness :
    simulateRouting (twoDevs.map (remaskDevice (fun _ => some "255.255.0.0"))) twoConns
        "192.168.1.10" "192.168.2.10" false =
      simulateRouting twoDevs twoConns "192.168.1.10" "192.168.2.10" false ∧
    getNetwork "10.1.2.3" = "10.1.2.0" := by
  refine ⟨(claim_C9 twoDevs twoConns "192.168.1.10" "192.168.2.10" false
    (fun _ => some "255.255.0.0")).1, ?_⟩
  exact (claim_C9 twoDevs twoConns "192.168.1.10" "192.168.2.10" false
    (fun _ => some "255.255.0.0")).2 "10.1.2.3" "10" "1" "2" ["3"] (by decide)

/-- A route chosen by the trial loop passed its own feasibility checks. -/
lemma tryRoutes_some_feasible (devices : List Device) (conns : List Connection)
    (cur : Device) (destIP destNetwork : String) :
    ∀ (l : List RouteEntry) (acc : List FailedRoute) (r : RouteEntry) (f : List FailedRoute),
      tryRoutes devices conns cur destIP destNetwork l acc = (some r, f) →
      routeFailure devices conns cur destIP destNetwork r = none := by
  intro l
  induction l with
  | nil => intro acc r f h; simp [tryRoutes] at h
  | cons r0 rest ih =>
    intro acc r f h
    simp only [tryRoutes] at h
    cases hrf : routeFailure devices conns cur destIP destNetwork r0 with
    | some f0 =>
      rw [hrf] at h
      exact ih (acc ++ [f0]) r f h
    | none =>
      rw [hrf] at h
      simp at h
      rw [← h.1]
      exact hrf

/-- Each resolver iteration only moves across physical links: a `Sum.inr`
next device is physically connected to the current one, and a successful
early return (direct route) appends a physically connected destination. -/
lemma nextStep_cases (devices : List Device) (conns : List Connection)
    (destIP : String) (ss : Bool) (st : LoopState) :
    (∀ nd steps', nextStep devices conns destIP ss st = Sum.inr (nd, steps') →
      hasPhysicalConnection st.currentDevice nd conns = true) ∧
    (∀ r, nextStep devices conns destIP ss st = Sum.inl r → r.success = true →
      ∃ dd, r.path = st.path ++ [dd.name] ∧ hasPhysicalConnection st.currentDevice dd conns = true) := by
  obtain ⟨cur, path, steps, visited, hop⟩ := st
  unfold nextStep
  dsimp only []
  by_cases ht : cur.type = DeviceType.router
  · rw [if_neg (not_not_intro ht)]
    cases hrt : cur.routingTable with
    | none =>
      constructor
      · intro nd steps' h; simp at h
      · intro r h hs; simp at h; rw [← h] at hs; simp at hs
    | some table =>
      dsimp only [Option.getD]
      by_cases hemp : table.isEmpty = true
      · rw [if_pos hemp]
        constructor
        · intro nd steps' h; simp at h
        · intro r h hs; injection h with h; rw [← h] at hs; simp at hs
      · rw [if_neg hemp]
        by_cases hme : (if (table.filter (fun r => r.destination == destIP)).isEmpty = true
              then table.filter (fun r => r.destination == getNetwork destIP)
              else table.filter (fun r => r.destination == destIP)).isEmpty = true
        · rw [if_pos hme]
          constructor
          · intro nd steps' h; simp at h
          · intro r h hs; injection h with h; rw [← h] at hs; simp at hs
        · rw [if_neg hme]
          cases htr : tryRoutes devices conns cur destIP (getNetwork destIP)
            (sortRoutes (if (table.filter (fun r => r.destination == destIP)).isEmpty
              then table.filter (fun r => r.destination == getNetwork destIP)
              else table.filter (fun r => r.destination == destIP))) [] with
          | mk routeOpt failed =>
            cases routeOpt with
            | none =>
              constructor
              · intro nd steps' h; simp at h
              · intro r h hs; injection h with h; rw [← h] at hs; simp at hs
            | some route =>
              dsimp only []
              have hfeas := tryRoutes_some_feasible devices conns cur destIP
                (getNetwork destIP) _ _ _ _ htr
              by_cases hds : isDirectSentinel route.nextHop = true
              · rw [if_pos hds]
                unfold routeFailure at hfeas
                rw [if_pos hds] at hfeas
                cases hdd : devices.find? (fun d => d.ip == destIP) with
                | none =>
                  rw [hdd] at hfeas
                  simp at hfeas
                | some dd =>
                  rw [hdd] at hfeas
                  dsimp only [] at hfeas
                  by_cases hX : (cur.interfaces.any (fun iface => getNetwork iface.ip == getNetwork destIP)) = true
                  · rw [if_neg (not_not_intro hX)] at hfeas
                    by_cases hY : hasPhysicalConnection cur dd conns = true
                    · constructor
                      · intro nd steps' h; simp at h
                      · intro r h hs
                        dsimp only [] at h
                        injection h with h
                        rw [← h]
                        exact ⟨dd, rfl, hY⟩
                    · rw [if_pos hY] at hfeas
                      simp at hfeas
                  · rw [if_pos (by simpa using hX)] at hfeas
                    simp at hfeas
              · rw [if_neg hds]
                unfold routeFailure at hfeas
                rw [if_neg hds] at hfeas
                cases hnr : findNextRouter devices route.nextHop with
                | none =>
                  rw [hnr] at hfeas
                  simp at hfeas
                | some nr =>
                  rw [hnr] at hfeas
                  dsimp only [] at hfeas
                  by_cases hT : nr.type = DeviceType.router
                  · rw [if_neg (not_not_intro hT)] at hfeas
                    by_cases hY : hasPhysicalConnection cur nr conns = true
                    · constructor
                      · intro nd steps' h
                        simp at h
                        rw [← h.1]
                        exact hY
                      · intro r h hs; simp at h
                    · rw [if_pos hY] at hfeas
                      simp at hfeas
                  · rw [if_pos hT] at hfeas
                    simp at hfeas
  · rw [if_pos ht]
    cases hgw : devices.find? (fun d =>
        d.type == DeviceType.router && d.interfaces.any (fun iface => getNetwork iface.ip == getNetwork cur.ip)) with
    | none =>
      constructor
      · intro nd steps' h; simp at h
      · intro r h hs; injection h with h; rw [← h] at hs; simp at hs
    | some gw =>
      dsimp only []
      by_cases hpc : hasPhysicalConnection cur gw conns = true
      · rw [if_neg (not_not_intro hpc)]
        constructor
        · intro nd steps' h
          simp at h
          rw [← h.1]
          exact hpc
        · intro r h hs; simp at h
      · rw [if_pos hpc]
        constructor
        · intro nd steps' h; simp at h
        · intro r h hs; injection h with h; rw [← h] at hs; simp at hs



/-- The loop invariant for C10: a successful loop result's path is the name
image of a physically connected device chain. -/
lemma routeLoop_connected (devices : List Device) (conns : List Connection)
    (destIP : String) (ss : Bool) :
    ∀ (fuel : Nat) (st : LoopState) (devs : List Device),
      devs.map Device.name = st.path →
      devs.getLast? = some st.currentDevice →
      List.Chain' (fun a b => hasPhysicalConnection a b conns = true) devs →
      (routeLoop devices conns destIP ss fuel st).success = true →
      ∃ devs2 : List Device,
        devs2.map Device.name = (routeLoop devices conns destIP ss fuel st).path ∧
        List.Chain' (fun a b => hasPhysicalConnection a b conns = true) devs2 := by
  intro fuel
  induction fuel with
  | zero =>
    intro st devs h1 h2 h3 hs
    simp [routeLoop] at hs
  | succ fuel ih =>
    intro st devs h1 h2 h3 hs
    simp only [routeLoop] at hs ⊢
    by_cases hdst : (st.currentDevice.ip == destIP) = true
    · rw [if_pos hdst] at hs ⊢
      exact ⟨devs, h1, h3⟩
    · rw [if_neg hdst] at hs ⊢
      cases hns : nextStep devices conns destIP ss st with
      | inl r =>
        simp only [hns] at hs ⊢
        obtain ⟨dd, hp, hc⟩ := (nextStep_cases devices conns destIP ss st).2 r hns hs
        refine ⟨devs ++ [dd], ?_, ?_⟩
        · rw [hp, List.map_append, h1]
          rfl
        · rw [List.chain'_append]
          refine ⟨h3, List.chain'_singleton _, ?_⟩
          intro x hx y hy
          rw [h2] at hx
          simp at hx hy
          rw [← hx, ← hy]
          exact hc
      | inr pr =>
        obtain ⟨nd, steps'⟩ := pr
        simp only [hns] at hs ⊢
        by_cases hv : st.visited.contains nd.id = true
        · rw [if_pos hv] at hs
          simp at hs
        · rw [if_neg hv] at hs ⊢
          have hconn := (nextStep_cases devices conns destIP ss st).1 nd steps' hns
          exact ih _ (devs ++ [nd])
            (by rw [List.map_append, h1]; rfl)
            (by simp)
            (by rw [List.chain'_append]
                refine ⟨h3, List.chain'_singleton _, ?_⟩
                intro x hx y hy
                rw [h2] at hx
                simp at hx hy
                rw [← hx, ← hy]
                exact hconn)
            hs

/-- C10: every successful `simulateRouting` result's path is the name
sequence of a device chain in which every consecutive pair has a physical
connection in the connections list. -/
theorem claim_C10 (devices : List Device) (conns : List Connection)
    (sourceIP destIP : String) (ss : Bool)
    (h : (simulateRouting devices conns sourceIP destIP ss).success = true) :
    ∃ devs : List Device,
      devs.map Device.name = (simulateRouting devices conns sourceIP destIP ss).path ∧
      List.Chain' (fun a b => hasPhysicalConnection a b conns = true) devs := by
  unfold simulateRouting at h ⊢
  by_cases h1 : validateIP sourceIP = true
  · rw [if_neg (not_not_intro h1)] at h ⊢
    by_cases h2 : validateIP destIP = true
    · rw [if_neg (not_not_intro h2)] at h ⊢
      cases hsd : devices.find? (fun d => d.ip == sourceIP) with
      | none =>
        simp [hsd] at h
      | some sd =>
        rw [hsd] at h
        dsimp only [] at h ⊢
        by_cases hsame : (sourceIP == destIP) = true
        · rw [if_pos hsame] at h ⊢
          exact ⟨[sd], rfl, List.chain'_singleton _⟩
        · rw [if_neg hsame] at h ⊢
          exact routeLoop_connected devices conns destIP ss maxHops
            ⟨sd, [sd.name], [], [sd.id], 0⟩ [sd] rfl rfl (List.chain'_singleton _) h
    · rw [if_pos h2] at h
      simp at h
  · rw [if_pos h1] at h
    simp at h

/-- Witness for C10 at the two-router scenario (path PC1, R1, R2, PC2). -/
theorem claim_C10_witness :
    (simulateRouting twoDevs twoConns "192.168.1.10" "192.168.2.10" false).success = true ∧
    ∃ devs : List Device,
      devs.map Device.name = (simulateRouting twoDevs twoConns "192.168.1.10" "192.168.2.10" false).path ∧
      List.Chain' (fun a b => hasPhysicalConnection a b twoConns = true) devs :=
  ⟨by decide, claim_C10 twoDevs twoConns "192.168.1.10" "192.168.2.10" false (by decide)⟩

/-- The early-return/continue shape of an iteration and the chosen next
device depend only on the current device, not on the accumulated
path/steps/visited state. -/
lemma nextStep_fst_eq (devices : List Device) (conns : List Connection)
    (destIP : String) (ss : Bool) (st : LoopState) :
    Sum.map (fun _ => ()) Prod.fst (nextStep devices conns destIP ss st) =
    Sum.map (fun _ => ()) Prod.fst
      (nextStep devices conns destIP ss ⟨st.currentDevice, [], [], [], 0⟩) := by
  obtain ⟨cur, path, steps, visited, hop⟩ := st
  unfold nextStep
  dsimp only []
  by_cases ht : cur.type = DeviceType.router
  · rw [if_neg (not_not_intro ht), if_neg (not_not_intro ht)]
    cases hrt : cur.routingTable with
    | none => rfl
    | some table =>
      dsimp only [Option.getD]
      by_cases hemp : table.isEmpty = true
      · rw [if_pos hemp]
        rw [if_pos hemp]
        rfl
      · rw [if_neg hemp]
        rw [if_neg hemp]
        by_cases hme : (if (table.filter (fun r => r.destination == destIP)).isEmpty = true
              then table.filter (fun r => r.destination == getNetwork destIP)
              else table.filter (fun r => r.destination == destIP)).isEmpty = true
        · rw [if_pos hme]
          rw [if_pos hme]
          rfl
        · rw [if_neg hme]
          rw [if_neg hme]
          cases htr : tryRoutes devices conns cur destIP (getNetwork destIP)
            (sortRoutes (if (table.filter (fun r => r.destination == destIP)).isEmpty
              then table.filter (fun r => r.destination == getNetwork destIP)
              else table.filter (fun r => r.destination == destIP))) [] with
          | mk routeOpt failed =>
            cases routeOpt with
            | none => rfl
            | some route =>
              dsimp only []
              by_cases hds : isDirectSentinel route.nextHop = true
              · rw [if_pos hds]
                rw [if_pos hds]
                cases hdd : devices.find? (fun d => d.ip == destIP) <;> rfl
              · rw [if_neg hds]
                rw [if_neg hds]
                cases hnr : findNextRouter devices route.nextHop <;> rfl
  · rw [if_pos ht, if_pos ht]
    cases hgw : devices.find? (fun d =>
        d.type == DeviceType.router && d.interfaces.any (fun iface => getNetwork iface.ip == getNetwork cur.ip)) with
    | none => rfl
    | some gw =>
      dsimp only []
      by_cases hpc : hasPhysicalConnection cur gw conns = true
      · rw [if_neg (not_not_intro hpc), if_neg (not_not_intro hpc)]
        rfl
      · rw [if_pos hpc, if_pos hpc]
        rfl

/-- If the per-device step function moves to `nd`, then from any loop state
at that device the iteration continues to `nd`. -/
lemma chooseNext_inr (devices : List Device) (conns : List Connection)
    (destIP : String) (ss : Bool) (st : LoopState) (nd : Device)
    (h : chooseNext devices conns destIP ss st.currentDevice = some nd) :
    ∃ steps', nextStep devices conns destIP ss st = Sum.inr (nd, steps') := by
  unfold chooseNext at h
  have hfst := nextStep_fst_eq devices conns destIP ss st
  cases hcan : nextStep devices conns destIP ss ⟨st.currentDevice, [], [], [], 0⟩ with
  | inl r =>
    rw [hcan] at h
    simp at h
  | inr pr =>
    obtain ⟨nd', s'⟩ := pr
    rw [hcan] at h
    simp at h
    subst h
    rw [hcan] at hfst
    cases hst : nextStep devices conns destIP ss st with
    | inl r =>
      rw [hst] at hfst
      simp [Sum.map] at hfst
    | inr pr2 =>
      obtain ⟨nd2, s2⟩ := pr2
      rw [hst] at hfst
      simp [Sum.map] at hfst
      exact ⟨s2, by rw [hfst]⟩



/-- A prefix of `a` is a prefix of `a ++ b`. -/
lemma strStarts_append_left (a b t : String) (h : strStarts a t = true) :
    strStarts (a ++ b) t = true := by
  unfold strStarts at *
  rw [List.isPrefixOf_iff_prefix] at *
  have hab : (a ++ b).toList = a.toList ++ b.toList := by
    simp [String.toList]
  rw [hab]
  exact h.trans (List.prefix_append _ _)

/-- A run that follows a walk into a repeated device id never succeeds, and
when the first repeat fits in the fuel budget it returns the loop-detected
failure. -/
lemma routeLoop_cycle (devices : List Device) (conns : List Connection)
    (destIP : String) (ss : Bool) :
    ∀ (mid : List Device) (bad : Device) (fuel : Nat) (st : LoopState),
      List.Chain' (fun a b => chooseNext devices conns destIP ss a = some b)
        (st.currentDevice :: (mid ++ [bad])) →
      (∀ d ∈ st.currentDevice :: mid, (d.ip == destIP) = false) →
      (st.visited ++ mid.map Device.id).Nodup →
      bad.id ∈ st.visited ++ mid.map Device.id →
      (routeLoop devices conns destIP ss fuel st).success = false ∧
      (mid.length + 1 ≤ fuel →
        strStarts (routeLoop devices conns destIP ss fuel st).message "❌ 检测到路由环路" = true) := by
  intro mid
  induction mid with
  | nil =>
    intro bad fuel st hchain hip hnodup hbad
    cases fuel with
    | zero => exact ⟨rfl, by omega⟩
    | succ fuel =>
      simp only [routeLoop]
      have hcurip : (st.currentDevice.ip == destIP) = false := hip _ (by simp)
      rw [if_neg (by simp [hcurip])]
      have hcn : chooseNext devices conns destIP ss st.currentDevice = some bad := by
        simpa using hchain
      obtain ⟨steps', hns⟩ := chooseNext_inr devices conns destIP ss st bad hcn
      rw [hns]
      dsimp only []
      have hvis : st.visited.contains bad.id = true := by
        simp only [List.map_nil, List.append_nil] at hbad
        simpa [List.elem_iff] using hbad
      rw [if_pos hvis]
      refine ⟨rfl, fun _ => ?_⟩
      dsimp only []
      apply strStarts_append_left
      apply strStarts_append_left
      apply strStarts_append_left
      apply strStarts_append_left
      decide
  | cons m mid ih =>
    intro bad fuel st hchain hip hnodup hbad
    cases fuel with
    | zero => exact ⟨rfl, by omega⟩
    | succ fuel =>
      simp only [routeLoop]
      have hcurip : (st.currentDevice.ip == destIP) = false := hip _ (by simp)
      rw [if_neg (by simp [hcurip])]
      have hchain2 : chooseNext devices conns destIP ss st.currentDevice = some m ∧
          List.Chain' (fun a b => chooseNext devices conns destIP ss a = some b) (m :: (mid ++ [bad])) := by
        simpa using hchain
      obtain ⟨steps', hns⟩ := chooseNext_inr devices conns destIP ss st m hchain2.1
      rw [hns]
      dsimp only []
      have hdisj := List.disjoint_of_nodup_append hnodup
      have hnm : m.id ∉ st.visited := by
        intro hmem
        refine hdisj hmem ?_
        simp
      rw [if_neg (by simpa [List.elem_iff] using hnm)]
      have hrec := ih bad fuel
        { currentDevice := m, path := st.path ++ [m.name], steps := steps',
          visited := st.visited ++ [m.id], hopCount := st.hopCount + 1 }
        (by simpa using hchain2.2)
        (by
          intro d hd
          exact hip d (by simp at hd ⊢; tauto))
        (by
          have : (st.visited ++ [m.id]) ++ mid.map Device.id = st.visited ++ (m.id :: mid.map Device.id) := by
            simp
          rw [this]
          simpa using hnodup)
        (by
          have : (st.visited ++ [m.id]) ++ mid.map Device.id = st.visited ++ (m.id :: mid.map Device.id) := by
            simp
          rw [this]
          simpa using hbad)
      refine ⟨hrec.1, fun hlen => hrec.2 (by simp at hlen ⊢; omega)⟩




/-- C2 (amended): if the deterministic routing walk from the source enters
a repeated device (a routing loop) without reaching the destination, the
resolver never returns success; when the first repeat occurs within the
10-hop budget the result is the distinct loop-detected failure (otherwise
the hop-limit failure, which only flags a possible loop, is returned — see
the counterexample). -/
theorem claim_C2 (devices : List Device) (conns : List Connection)
    (sourceIP destIP : String) (ss : Bool)
    (sd bad : Device) (mid : List Device)
    (hval1 : validateIP sourceIP = true) (hval2 : validateIP destIP = true)
    (hfind : devices.find? (fun d => d.ip == sourceIP) = some sd)
    (hchain : List.Chain' (fun a b => chooseNext devices conns destIP ss a = some b)
      (sd :: (mid ++ [bad])))
    (hip : ∀ d ∈ sd :: mid, (d.ip == destIP) = false)
    (hnodup : (sd.id :: mid.map Device.id).Nodup)
    (hbad : bad.id ∈ sd.id :: mid.map Device.id) :
    (simulateRouting devices conns sourceIP destIP ss).success = false ∧
    (mid.length + 1 ≤ maxHops →
      strStarts (simulateRouting devices conns sourceIP destIP ss).message "❌ 检测到路由环路" = true) := by
  have hsame : (sourceIP == destIP) = false := by
    have hp := List.find?_some hfind
    have hip0 := hip sd (by simp)
    have hsd : sd.ip = sourceIP := by simpa using hp
    rw [← hsd]
    exact hip0
  unfold simulateRouting
  rw [if_neg (not_not_intro hval1), if_neg (not_not_intro hval2), hfind]
  dsimp only []
  rw [if_neg (by simp [hsame])]
  exact routeLoop_cycle devices conns destIP ss mid bad maxHops
    ⟨sd, [sd.name], [], [sd.id], 0⟩ hchain hip (by simpa using hnodup) (by simpa using hbad)

/-- Witness for C2: a two-router loop is detected with the loop-detected
message. -/
theorem claim_C2_witness :
    (simulateRouting loopDevs loopConns "10.8.0.1" "99.99.99.99" false).success = false ∧
    strStarts (simulateRouting loopDevs loopConns "10.8.0.1" "99.99.99.99" false).message
      "❌ 检测到路由环路" = true := by
  have h := claim_C2 loopDevs loopConns "10.8.0.1" "99.99.99.99" false lpA lpA [lpB]
    (by decide) (by decide) (by decide)
    (List.chain'_cons.mpr ⟨by decide, List.chain'_cons.mpr ⟨by decide, List.chain'_singleton _⟩⟩)
    (by decide) (by decide) (by decide)
  exact ⟨h.1, h.2 (by decide)⟩

/-- Counterexample to C2 as stated: in an 11-router ring the routing loop is
reachable from the source (the walk hypotheses hold concretely), yet the
resolver reports the hop-limit failure, not the loop-detected failure. -/
theorem claim_C2_counterexample :
    List.Chain' (fun a b => chooseNext ringDevs ringConns "99.99.99.99" false a = some b) ringWalk ∧
    (∀ d ∈ ringWalk.dropLast, (d.ip == "99.99.99.99") = false) ∧
    (ringWalk.dropLast.map Device.id).Nodup ∧
    (ringWalk.getLast?).map Device.id = some "ring0" ∧
    "ring0" ∈ ringWalk.dropLast.map Device.id ∧
    (simulateRouting ringDevs ringConns "10.7.0.1" "99.99.99.99").success = false ∧
    strStarts (simulateRouting ringDevs ringConns "10.7.0.1" "99.99.99.99").message
      "❌ 检测到路由环路" = false ∧
    strStarts (simulateRouting ringDevs ringConns "10.7.0.1" "99.99.99.99").message
      "❌ 超过最大跳数限制" = true := by
  refine ⟨?_, by decide, by decide, by decide, by decide, by decide, by decide, by decide⟩
  repeat
    refine List.chain'_cons.mpr ⟨by decide, ?_⟩
  exact List.chain'_singleton _

end NetLabX
